import Mathlib

/-!
AuditManager sweepers and MediaLive channel test checks.

A shallow embedding of

* `internal/service/auditmanager/sweep.go`: `isCompleteSetupError` and the six
  sweep functions `sweepAssessments`, `sweepAssessmentDelegations`,
  `sweepAssessmentReports`, `sweepControls`, `sweepFrameworks`,
  `sweepFrameworkShares`;
* the sweeper registrations of `init` in the same file;
* `internal/service/medialive/channel_test.go`: `testAccCheckChannelDestroy`,
  `testAccCheckChannelExists` and `testAccCheckChannelStatus`, and the configurations
  `testAccChannelConfig_*` with the steps and checks of the tests that use them.

Go `error` values are modelled by `Option GoError` (`none` is `nil`).  What the
surroundings answer during one execution (client acquisition, the results of the
successive `NextPage` calls, the orchestrator) is a `World`; a sweep function maps a
`World` and a region to an `Outcome`: the returned error and the list and
orchestrator calls it made, in order.  `log.Printf` statements influence neither and
are left out, and `client.AuditManagerClient(ctx)` is taken to hand back a connection
for whatever client was acquired.
-/

namespace TfAws

/-! ## Go error values -/

/-- Go error values, as far as `errors.As`, `errors.Is`, `Error()` and
`multierror` distinguish them. -/
inductive GoError where
  /-- `*types.AccessDeniedException` of the Audit Manager SDK. -/
  | AccessDeniedException (Message : String)
  /-- Any other service error, with its error code (`smithy.GenericAPIError`). -/
  | GenericAPIError (Code : String) (Message : String)
  /-- Result of `errors.New`. -/
  | errorString (s : String)
  /-- Result of `fmt.Errorf(format + "%w", err)`: `format` is the text before the verb. -/
  | wrapError (format : String) (err : GoError)
  /-- A non-nil `*multierror.Error` with the given `Errors`. -/
  | multi (Errors : List GoError)
  deriving Repr, Inhabited

namespace GoError

mutual
/-- Is there an `*types.AccessDeniedException` among `err` and the errors reachable
from it by unwrapping: `errors.As(err, &ade)` for `var ade *types.AccessDeniedException`.
A `*multierror.Error` unwraps to each of its entries. -/
def asAccessDenied : GoError → Bool
  | AccessDeniedException _ => true
  | GenericAPIError _ _ => false
  | errorString _ => false
  | wrapError _ e => asAccessDenied e
  | multi es => anyAsAccessDenied es
/-- `asAccessDenied` on some entry of a list. -/
def anyAsAccessDenied : List GoError → Bool
  | [] => false
  | e :: es => asAccessDenied e || anyAsAccessDenied es
end

mutual
/-- The text of `err.Error()`. -/
def Error : GoError → String
  | AccessDeniedException m => "AccessDeniedException: " ++ m
  | GenericAPIError c m => "api error " ++ c ++ ": " ++ m
  | errorString s => s
  | wrapError f e => f ++ Error e
  | multi [e] => "1 error occurred:\n\t* " ++ Error e ++ "\n\n"
  | multi es =>
      toString es.length ++ " errors occurred:\n\t" ++ "\n\t".intercalate (points es) ++ "\n\n"
/-- The bullet lines of `multierror.ListFormatFunc`. -/
def points : List GoError → List String
  | [] => []
  | e :: es => ("* " ++ Error e) :: points es
end

/-- The error `err.Unwrap()` gives for a `fmt.Errorf` wrapper (`none` otherwise). -/
def Unwrap : GoError → Option GoError
  | wrapError _ e => some e
  | _ => none

end GoError

mutual
/-- Decision procedure for equality of error values. -/
def GoError.decEq : (a b : GoError) → Decidable (a = b)
  | .AccessDeniedException a, .AccessDeniedException b =>
    if h : a = b then isTrue (by rw [h]) else isFalse (by intro h2; cases h2; exact h rfl)
  | .AccessDeniedException _, .GenericAPIError _ _ => isFalse (by intro h; cases h)
  | .AccessDeniedException _, .errorString _ => isFalse (by intro h; cases h)
  | .AccessDeniedException _, .wrapError _ _ => isFalse (by intro h; cases h)
  | .AccessDeniedException _, .multi _ => isFalse (by intro h; cases h)
  | .GenericAPIError _ _, .AccessDeniedException _ => isFalse (by intro h; cases h)
  | .GenericAPIError c a, .GenericAPIError d b =>
    if h : c = d ∧ a = b then isTrue (by rw [h.1, h.2])
    else isFalse (by intro h2; cases h2; exact h ⟨rfl, rfl⟩)
  | .GenericAPIError _ _, .errorString _ => isFalse (by intro h; cases h)
  | .GenericAPIError _ _, .wrapError _ _ => isFalse (by intro h; cases h)
  | .GenericAPIError _ _, .multi _ => isFalse (by intro h; cases h)
  | .errorString _, .AccessDeniedException _ => isFalse (by intro h; cases h)
  | .errorString _, .GenericAPIError _ _ => isFalse (by intro h; cases h)
  | .errorString a, .errorString b =>
    if h : a = b then isTrue (by rw [h]) else isFalse (by intro h2; cases h2; exact h rfl)
  | .errorString _, .wrapError _ _ => isFalse (by intro h; cases h)
  | .errorString _, .multi _ => isFalse (by intro h; cases h)
  | .wrapError _ _, .AccessDeniedException _ => isFalse (by intro h; cases h)
  | .wrapError _ _, .GenericAPIError _ _ => isFalse (by intro h; cases h)
  | .wrapError _ _, .errorString _ => isFalse (by intro h; cases h)
  | .wrapError a e, .wrapError b f =>
    match GoError.decEq e f with
    | isTrue h1 =>
      if h : a = b then isTrue (by rw [h, h1]) else isFalse (by intro h2; cases h2; exact h rfl)
    | isFalse h1 => isFalse (by intro h2; cases h2; exact h1 rfl)
  | .wrapError _ _, .multi _ => isFalse (by intro h; cases h)
  | .multi _, .AccessDeniedException _ => isFalse (by intro h; cases h)
  | .multi _, .GenericAPIError _ _ => isFalse (by intro h; cases h)
  | .multi _, .errorString _ => isFalse (by intro h; cases h)
  | .multi _, .wrapError _ _ => isFalse (by intro h; cases h)
  | .multi es, .multi fs =>
    match GoError.decEqList es fs with
    | isTrue h1 => isTrue (by rw [h1])
    | isFalse h1 => isFalse (by intro h2; cases h2; exact h1 rfl)
/-- Decision procedure for equality of lists of error values. -/
def GoError.decEqList : (es fs : List GoError) → Decidable (es = fs)
  | [], [] => isTrue rfl
  | [], _ :: _ => isFalse (by intro h; cases h)
  | _ :: _, [] => isFalse (by intro h; cases h)
  | e :: es, f :: fs =>
    match GoError.decEq e f, GoError.decEqList es fs with
    | isTrue h1, isTrue h2 => isTrue (by rw [h1, h2])
    | isFalse h1, _ => isFalse (by intro h; cases h; exact h1 rfl)
    | isTrue _, isFalse h2 => isFalse (by intro h; cases h; exact h2 rfl)
end

instance : DecidableEq GoError := GoError.decEq

namespace GoError

mutual
/-- Does `errors.Is(err, target)` hold: `target` is `err` or is reachable from it by
unwrapping.  Identity of error values is modelled by equality. -/
def Is : GoError → GoError → Bool
  | AccessDeniedException m, target => decide (AccessDeniedException m = target)
  | GenericAPIError c m, target => decide (GenericAPIError c m = target)
  | errorString s, target => decide (errorString s = target)
  | wrapError f e, target => decide (wrapError f e = target) || Is e target
  | multi es, target => decide (multi es = target) || anyIs es target
/-- `Is` on some entry of a list. -/
def anyIs : List GoError → GoError → Bool
  | [], _ => false
  | e :: es, target => Is e target || anyIs es target
end

end GoError

/-! ## Data model -/

/-- `aws.ToString`: the pointed-to string, or the empty string for a nil pointer. -/
def aws.ToString : Option String → String
  | none => ""
  | some s => s

/-- `types.AssessmentMetadataItem`, with the field the sweeper reads. -/
structure AssessmentMetadataItem where
  Id : Option String
  deriving DecidableEq, Repr

/-- `types.DelegationMetadata`, with the fields the sweeper reads. -/
structure DelegationMetadata where
  Id : Option String
  AssessmentId : Option String
  deriving DecidableEq, Repr

/-- `types.AssessmentReportMetadata`, with the fields the sweeper reads. -/
structure AssessmentReportMetadata where
  Id : Option String
  AssessmentId : Option String
  deriving DecidableEq, Repr

/-- `types.ControlMetadata`, with the field the sweeper reads. -/
structure ControlMetadata where
  Id : Option String
  deriving DecidableEq, Repr

/-- `types.AssessmentFrameworkMetadata`, with the field the sweeper reads. -/
structure AssessmentFrameworkMetadata where
  Id : Option String
  deriving DecidableEq, Repr

/-- `types.AssessmentFrameworkShareRequest`, with the field the sweeper reads. -/
structure AssessmentFrameworkShareRequest where
  Id : Option String
  deriving DecidableEq, Repr

/-- `types.ControlType`. -/
inductive ControlType where
  | Standard | Custom
  deriving DecidableEq, Repr

/-- `types.FrameworkType`. -/
inductive FrameworkType where
  | Standard | Custom
  deriving DecidableEq, Repr

/-- `types.ShareRequestType`. -/
inductive ShareRequestType where
  | Sent | Received
  deriving DecidableEq, Repr

/-- The request value a paginator is created with; an unset enum field is `none`. -/
inductive ListInput where
  | ListAssessmentsInput
  | GetDelegationsInput
  | ListAssessmentReportsInput
  | ListControlsInput (ControlType : Option ControlType)
  | ListAssessmentFrameworksInput (FrameworkType : Option FrameworkType)
  | ListAssessmentFrameworkShareRequestsInput (RequestType : Option ShareRequestType)
  deriving DecidableEq, Repr

/-- The resource constructors of the package, which carry the delete routine of their
resource type. -/
inductive ResourceFactory where
  | newResourceAssessment
  | newResourceAssessmentDelegation
  | newResourceAssessmentReport
  | newResourceControl
  | newResourceFramework
  | newResourceFrameworkShare
  deriving DecidableEq, Repr

/-- The region-bound client handle `*conns.AWSClient`. -/
structure AWSClient where
  Region : String
  deriving DecidableEq, Repr

/-- The value of `framework.NewAttribute(path, value)`. -/
structure Attribute where
  path : String
  value : String
  deriving DecidableEq, Repr

/-- `framework.NewAttribute`. -/
def framework.NewAttribute (path value : String) : Attribute := ⟨path, value⟩

/-- A disposal descriptor: the value of `framework.NewSweepResource(factory, meta, attrs...)`. -/
structure Sweepable where
  factory : ResourceFactory
  meta : Option AWSClient
  attrs : List Attribute
  deriving DecidableEq, Repr

/-- `framework.NewSweepResource`. -/
def framework.NewSweepResource (factory : ResourceFactory) (meta : Option AWSClient)
    (attrs : List Attribute) : Sweepable := ⟨factory, meta, attrs⟩

/-- What one `pages.NextPage(ctx)` call returns: the items of the page, or an error. -/
abbrev PageResult (Item : Type) := Except GoError (List Item)

/-- The `err` result of a `NextPage` call. -/
def PageResult.err {Item : Type} : PageResult Item → Option GoError
  | .ok _ => none
  | .error e => some e

/-- The answers of the surroundings during one execution of a sweep function. -/
structure World (Item : Type) where
  /-- The verdict of `sweep.SkipSweepError` on each non-nil error. -/
  skipSignal : GoError → Bool
  /-- The client returned by `sweep.SharedRegionalSweepClient(ctx, region)`. -/
  client : Option AWSClient
  /-- The error returned by `sweep.SharedRegionalSweepClient(ctx, region)`. -/
  clientErr : Option GoError
  /-- The results of the successive `NextPage` calls; `HasMorePages` reports `false`
  once all of them have been fetched. -/
  pages : List (PageResult Item)
  /-- The error `sweep.SweepOrchestratorWithContext(ctx, sweepResources)` returns. -/
  SweepOrchestratorWithContext : List Sweepable → Option GoError

/-- A call a sweep function makes to the list API or to the orchestrator. -/
inductive Call where
  | NextPage (input : ListInput)
  | SweepOrchestratorWithContext (sweepResources : List Sweepable)
  deriving DecidableEq, Repr

/-- The result of running a sweep function: the error it returns and the calls it made. -/
structure Outcome where
  ret : Option GoError
  calls : List Call
  deriving DecidableEq, Repr

/-- The batches handed to the orchestrator, one per orchestrator call, in order. -/
def Outcome.orchestrated (o : Outcome) : List (List Sweepable) :=
  o.calls.filterMap fun c =>
    match c with
    | .SweepOrchestratorWithContext b => some b
    | .NextPage _ => none

/-- The inputs of the `NextPage` calls, in order. -/
def Outcome.listed (o : Outcome) : List ListInput :=
  o.calls.filterMap fun c =>
    match c with
    | .NextPage i => some i
    | .SweepOrchestratorWithContext _ => none

/-! ## Library functions the sweepers call -/

/-- Modelled from the spec: `sweep.SkipSweepError` of package `internal/sweep`, which is
not among the sources, recognises the generic "skip sweeping" signal.  Which non-nil
errors are such a signal is the parameter `skipSignal`; a nil error is no signal. -/
def sweep.SkipSweepError (skipSignal : GoError → Bool) : Option GoError → Bool
  | none => false
  | some e => skipSignal e

/-- `fmt.Errorf(format + "%w", err)` for a non-nil `err`. -/
def fmt.Errorf (format : String) (err : GoError) : GoError := .wrapError format err

/-- `multierror.Append(errs, err)` for a `*multierror.Error` `errs` (`none` is the nil
pointer) and a non-nil `err`: the entries of a `*multierror.Error` argument are
appended one by one, any other error is appended as one entry. -/
def multierror.Append (errs : Option (List GoError)) (err : GoError) : Option (List GoError) :=
  let old := errs.getD []
  match err with
  | .multi es => some (old ++ es)
  | e => some (old ++ [e])

/-- `errs.ErrorOrNil()`: nil for a nil pointer or an empty list of entries. -/
def multierror.ErrorOrNil : Option (List GoError) → Option GoError
  | none => none
  | some [] => none
  | some (e :: es) => some (.multi (e :: es))

/-- The entries of a returned aggregated error (`Errors` of a `*multierror.Error`);
`none` when the returned value is nil or not an aggregated error. -/
def aggregatedEntries : Option GoError → Option (List GoError)
  | some (.multi es) => some es
  | _ => none

/-! ## sweep.go -/

/-- `isCompleteSetupError`: `errors.As(err, &ade)` with `ade` of type
`*types.AccessDeniedException`. -/
def isCompleteSetupError (err : Option GoError) : Bool :=
  match err with
  | none => false
  | some e => if e.asAccessDenied then true else false

/-- The page loop and the statements after it of `sweepAssessments`: `pages` are the
results of the `NextPage` calls still to come, `sweepResources` the descriptors built
so far, `calls` the calls made so far. -/
def sweepAssessments.run (w : World AssessmentMetadataItem) (region : String) :
    List (PageResult AssessmentMetadataItem) → List Sweepable → List Call → Outcome
  | [], sweepResources, calls =>
    -- `pages.HasMorePages()` is false
    let calls := calls ++ [Call.SweepOrchestratorWithContext sweepResources]
    let errs : Option (List GoError) :=
      match w.SweepOrchestratorWithContext sweepResources with
      | some err =>
        multierror.Append none
          (fmt.Errorf ("error sweeping AuditManager Assessments for " ++ region ++ ": ") err)
      | none => none
    -- `err` is here the variable assigned by `sweep.SharedRegionalSweepClient`
    if sweep.SkipSweepError w.skipSignal w.clientErr then ⟨none, calls⟩
    else ⟨multierror.ErrorOrNil errs, calls⟩
  | page :: pages, sweepResources, calls =>
    let calls := calls ++ [Call.NextPage .ListAssessmentsInput]
    if sweep.SkipSweepError w.skipSignal page.err || isCompleteSetupError page.err then
      ⟨none, calls⟩
    else
      match page with
      | .error err => ⟨some (fmt.Errorf "error retrieving AuditManager Assessments: " err), calls⟩
      | .ok AssessmentMetadata =>
        sweepAssessments.run w region pages
          (sweepResources ++ AssessmentMetadata.map fun assessment =>
            let id := aws.ToString assessment.Id
            framework.NewSweepResource .newResourceAssessment w.client
              [framework.NewAttribute "id" id])
          calls

/-- `sweepAssessments(region)`.  The error of `sweep.SharedRegionalSweepClient` is
formatted and dropped, the function goes on with the client it got. -/
def sweepAssessments (w : World AssessmentMetadataItem) (region : String) : Outcome :=
  sweepAssessments.run w region w.pages [] []

/-- The page loop and the statements after it of `sweepAssessmentDelegations`. -/
def sweepAssessmentDelegations.run (w : World DelegationMetadata) (region : String) :
    List (PageResult DelegationMetadata) → List Sweepable → List Call → Outcome
  | [], sweepResources, calls =>
    -- `pages.HasMorePages()` is false
    let calls := calls ++ [Call.SweepOrchestratorWithContext sweepResources]
    let errs : Option (List GoError) :=
      match w.SweepOrchestratorWithContext sweepResources with
      | some err =>
        multierror.Append none
          (fmt.Errorf ("error sweeping AuditManager Assessment Delegations for " ++ region ++ ": ") err)
      | none => none
    -- `err` is here the variable assigned by `sweep.SharedRegionalSweepClient`
    if sweep.SkipSweepError w.skipSignal w.clientErr then ⟨none, calls⟩
    else ⟨multierror.ErrorOrNil errs, calls⟩
  | page :: pages, sweepResources, calls =>
    let calls := calls ++ [Call.NextPage .GetDelegationsInput]
    if sweep.SkipSweepError w.skipSignal page.err || isCompleteSetupError page.err then
      ⟨none, calls⟩
    else
      match page with
      | .error err => ⟨some (fmt.Errorf "error retrieving AuditManager Assessment Delegations: " err), calls⟩
      | .ok Delegations =>
        sweepAssessmentDelegations.run w region pages
          (sweepResources ++ Delegations.map fun d =>
            framework.NewSweepResource .newResourceAssessmentDelegation w.client
              [framework.NewAttribute "assessment_id" (aws.ToString d.AssessmentId),
               framework.NewAttribute "delegation_id" (aws.ToString d.Id)])
          calls

/-- `sweepAssessmentDelegations(region)`. -/
def sweepAssessmentDelegations (w : World DelegationMetadata) (region : String) : Outcome :=
  sweepAssessmentDelegations.run w region w.pages [] []

/-- The page loop and the statements after it of `sweepAssessmentReports`. -/
def sweepAssessmentReports.run (w : World AssessmentReportMetadata) (region : String) :
    List (PageResult AssessmentReportMetadata) → List Sweepable → List Call → Outcome
  | [], sweepResources, calls =>
    -- `pages.HasMorePages()` is false
    let calls := calls ++ [Call.SweepOrchestratorWithContext sweepResources]
    let errs : Option (List GoError) :=
      match w.SweepOrchestratorWithContext sweepResources with
      | some err =>
        multierror.Append none
          (fmt.Errorf ("error sweeping AuditManager Assessment Reports for " ++ region ++ ": ") err)
      | none => none
    -- `err` is here the variable assigned by `sweep.SharedRegionalSweepClient`
    if sweep.SkipSweepError w.skipSignal w.clientErr then ⟨none, calls⟩
    else ⟨multierror.ErrorOrNil errs, calls⟩
  | page :: pages, sweepResources, calls =>
    let calls := calls ++ [Call.NextPage .ListAssessmentReportsInput]
    if sweep.SkipSweepError w.skipSignal page.err || isCompleteSetupError page.err then
      ⟨none, calls⟩
    else
      match page with
      | .error err => ⟨some (fmt.Errorf "error retrieving AuditManager Assessment Reports: " err), calls⟩
      | .ok AssessmentReports =>
        sweepAssessmentReports.run w region pages
          (sweepResources ++ AssessmentReports.map fun report =>
            let id := aws.ToString report.Id
            framework.NewSweepResource .newResourceAssessmentReport w.client
              [framework.NewAttribute "id" id,
               framework.NewAttribute "assessment_id" (aws.ToString report.AssessmentId)])
          calls

/-- `sweepAssessmentReports(region)`. -/
def sweepAssessmentReports (w : World AssessmentReportMetadata) (region : String) : Outcome :=
  sweepAssessmentReports.run w region w.pages [] []

/-- The page loop and the statements after it of `sweepControls`. -/
def sweepControls.run (w : World ControlMetadata) (region : String) :
    List (PageResult ControlMetadata) → List Sweepable → List Call → Outcome
  | [], sweepResources, calls =>
    -- `pages.HasMorePages()` is false
    let calls := calls ++ [Call.SweepOrchestratorWithContext sweepResources]
    let errs : Option (List GoError) :=
      match w.SweepOrchestratorWithContext sweepResources with
      | some err =>
        multierror.Append none
          (fmt.Errorf ("error sweeping AuditManager Controls for " ++ region ++ ": ") err)
      | none => none
    -- `err` is here the variable assigned by `sweep.SharedRegionalSweepClient`
    if sweep.SkipSweepError w.skipSignal w.clientErr then ⟨none, calls⟩
    else ⟨multierror.ErrorOrNil errs, calls⟩
  | page :: pages, sweepResources, calls =>
    let calls := calls ++ [Call.NextPage (.ListControlsInput (some .Custom))]
    if sweep.SkipSweepError w.skipSignal page.err || isCompleteSetupError page.err then
      ⟨none, calls⟩
    else
      match page with
      | .error err => ⟨some (fmt.Errorf "error retrieving AuditManager Controls: " err), calls⟩
      | .ok ControlMetadataList =>
        sweepControls.run w region pages
          (sweepResources ++ ControlMetadataList.map fun control =>
            let id := aws.ToString control.Id
            framework.NewSweepResource .newResourceControl w.client
              [framework.NewAttribute "id" id])
          calls

/-- `sweepControls(region)`. -/
def sweepControls (w : World ControlMetadata) (region : String) : Outcome :=
  sweepControls.run w region w.pages [] []

/-- The page loop and the statements after it of `sweepFrameworks`. -/
def sweepFrameworks.run (w : World AssessmentFrameworkMetadata) (region : String) :
    List (PageResult AssessmentFrameworkMetadata) → List Sweepable → List Call → Outcome
  | [], sweepResources, calls =>
    -- `pages.HasMorePages()` is false
    let calls := calls ++ [Call.SweepOrchestratorWithContext sweepResources]
    let errs : Option (List GoError) :=
      match w.SweepOrchestratorWithContext sweepResources with
      | some err =>
        multierror.Append none
          (fmt.Errorf ("error sweeping AuditManager Frameworks for " ++ region ++ ": ") err)
      | none => none
    -- `err` is here the variable assigned by `sweep.SharedRegionalSweepClient`
    if sweep.SkipSweepError w.skipSignal w.clientErr then ⟨none, calls⟩
    else ⟨multierror.ErrorOrNil errs, calls⟩
  | page :: pages, sweepResources, calls =>
    let calls := calls ++ [Call.NextPage (.ListAssessmentFrameworksInput (some .Custom))]
    if sweep.SkipSweepError w.skipSignal page.err || isCompleteSetupError page.err then
      ⟨none, calls⟩
    else
      match page with
      | .error err => ⟨some (fmt.Errorf "error retrieving AuditManager Frameworks: " err), calls⟩
      | .ok FrameworkMetadataList =>
        sweepFrameworks.run w region pages
          (sweepResources ++ FrameworkMetadataList.map fun f =>
            let id := aws.ToString f.Id
            framework.NewSweepResource .newResourceFramework w.client
              [framework.NewAttribute "id" id])
          calls

/-- `sweepFrameworks(region)`. -/
def sweepFrameworks (w : World AssessmentFrameworkMetadata) (region : String) : Outcome :=
  sweepFrameworks.run w region w.pages [] []

/-- The page loop and the statements after it of `sweepFrameworkShares`. -/
def sweepFrameworkShares.run (w : World AssessmentFrameworkShareRequest) (region : String) :
    List (PageResult AssessmentFrameworkShareRequest) → List Sweepable → List Call → Outcome
  | [], sweepResources, calls =>
    -- `pages.HasMorePages()` is false
    let calls := calls ++ [Call.SweepOrchestratorWithContext sweepResources]
    let errs : Option (List GoError) :=
      match w.SweepOrchestratorWithContext sweepResources with
      | some err =>
        multierror.Append none
          (fmt.Errorf ("error sweeping AuditManager Framework Shares for " ++ region ++ ": ") err)
      | none => none
    -- `err` is here the variable assigned by `sweep.SharedRegionalSweepClient`
    if sweep.SkipSweepError w.skipSignal w.clientErr then ⟨none, calls⟩
    else ⟨multierror.ErrorOrNil errs, calls⟩
  | page :: pages, sweepResources, calls =>
    let calls := calls ++ [Call.NextPage (.ListAssessmentFrameworkShareRequestsInput (some .Sent))]
    if sweep.SkipSweepError w.skipSignal page.err || isCompleteSetupError page.err then
      ⟨none, calls⟩
    else
      match page with
      | .error err => ⟨some (fmt.Errorf "error retrieving AuditManager Framework Shares: " err), calls⟩
      | .ok AssessmentFrameworkShareRequests =>
        sweepFrameworkShares.run w region pages
          (sweepResources ++ AssessmentFrameworkShareRequests.map fun share =>
            let id := aws.ToString share.Id
            framework.NewSweepResource .newResourceFrameworkShare w.client
              [framework.NewAttribute "id" id])
          calls

/-- `sweepFrameworkShares(region)`. -/
def sweepFrameworkShares (w : World AssessmentFrameworkShareRequest) (region : String) : Outcome :=
  sweepFrameworkShares.run w region w.pages [] []

/-! ## The six sweepers as one family -/

/-- The six sweep functions of the package. -/
inductive SweepKind where
  | Assessments
  | AssessmentDelegations
  | AssessmentReports
  | Controls
  | Frameworks
  | FrameworkShares
  deriving DecidableEq, Repr

/-- The summary type the list operation of a sweep function returns. -/
abbrev SweepKind.Item : SweepKind → Type
  | .Assessments => AssessmentMetadataItem
  | .AssessmentDelegations => DelegationMetadata
  | .AssessmentReports => AssessmentReportMetadata
  | .Controls => ControlMetadata
  | .Frameworks => AssessmentFrameworkMetadata
  | .FrameworkShares => AssessmentFrameworkShareRequest

/-- The sweep function of each kind. -/
def SweepKind.sweep : (k : SweepKind) → World k.Item → String → Outcome
  | .Assessments => sweepAssessments
  | .AssessmentDelegations => sweepAssessmentDelegations
  | .AssessmentReports => sweepAssessmentReports
  | .Controls => sweepControls
  | .Frameworks => sweepFrameworks
  | .FrameworkShares => sweepFrameworkShares

/-- The resource name used in the error messages of each sweep function. -/
def SweepKind.label : SweepKind → String
  | .Assessments => "Assessments"
  | .AssessmentDelegations => "Assessment Delegations"
  | .AssessmentReports => "Assessment Reports"
  | .Controls => "Controls"
  | .Frameworks => "Frameworks"
  | .FrameworkShares => "Framework Shares"

/-- The disposal descriptor each sweep function builds for a listed summary. -/
def SweepKind.descriptor : (k : SweepKind) → Option AWSClient → k.Item → Sweepable
  | .Assessments, client, assessment =>
    ⟨.newResourceAssessment, client, [⟨"id", aws.ToString assessment.Id⟩]⟩
  | .AssessmentDelegations, client, d =>
    ⟨.newResourceAssessmentDelegation, client,
      [⟨"assessment_id", aws.ToString d.AssessmentId⟩, ⟨"delegation_id", aws.ToString d.Id⟩]⟩
  | .AssessmentReports, client, report =>
    ⟨.newResourceAssessmentReport, client,
      [⟨"id", aws.ToString report.Id⟩, ⟨"assessment_id", aws.ToString report.AssessmentId⟩]⟩
  | .Controls, client, control =>
    ⟨.newResourceControl, client, [⟨"id", aws.ToString control.Id⟩]⟩
  | .Frameworks, client, f =>
    ⟨.newResourceFramework, client, [⟨"id", aws.ToString f.Id⟩]⟩
  | .FrameworkShares, client, share =>
    ⟨.newResourceFrameworkShare, client, [⟨"id", aws.ToString share.Id⟩]⟩

/-- The request value each sweep function creates its paginator with. -/
def SweepKind.input : SweepKind → ListInput
  | .Assessments => .ListAssessmentsInput
  | .AssessmentDelegations => .GetDelegationsInput
  | .AssessmentReports => .ListAssessmentReportsInput
  | .Controls => .ListControlsInput (some .Custom)
  | .Frameworks => .ListAssessmentFrameworksInput (some .Custom)
  | .FrameworkShares => .ListAssessmentFrameworkShareRequestsInput (some .Sent)

/-- The common shape of the six sweep functions: page loop and final statements,
for the list input, descriptor builder and label of kind `k`. -/
def sweepGeneric.run (k : SweepKind) (w : World k.Item) (region : String) :
    List (PageResult k.Item) → List Sweepable → List Call → Outcome
  | [], sweepResources, calls =>
    let calls := calls ++ [Call.SweepOrchestratorWithContext sweepResources]
    let errs : Option (List GoError) :=
      match w.SweepOrchestratorWithContext sweepResources with
      | some err =>
        multierror.Append none
          (fmt.Errorf ("error sweeping AuditManager " ++ k.label ++ " for " ++ region ++ ": ") err)
      | none => none
    if sweep.SkipSweepError w.skipSignal w.clientErr then ⟨none, calls⟩
    else ⟨multierror.ErrorOrNil errs, calls⟩
  | page :: pages, sweepResources, calls =>
    let calls := calls ++ [Call.NextPage k.input]
    if sweep.SkipSweepError w.skipSignal page.err || isCompleteSetupError page.err then
      ⟨none, calls⟩
    else
      match page with
      | .error err =>
        ⟨some (fmt.Errorf ("error retrieving AuditManager " ++ k.label ++ ": ") err), calls⟩
      | .ok items =>
        sweepGeneric.run k w region pages (sweepResources ++ items.map (k.descriptor w.client)) calls

/-- The generic sweep procedure, started on the page results of the world. -/
def sweepGeneric (k : SweepKind) (w : World k.Item) (region : String) : Outcome :=
  sweepGeneric.run k w region w.pages [] []

/-! ## The delete orchestrator -/

/-- The resource type each constructor stands for, under the name `init` registers
its sweeper with. -/
def ResourceFactory.typeName : ResourceFactory → String
  | .newResourceAssessment => "aws_auditmanager_assessment"
  | .newResourceAssessmentDelegation => "aws_auditmanager_assessment_delegation"
  | .newResourceAssessmentReport => "aws_auditmanager_assessment_report"
  | .newResourceControl => "aws_auditmanager_control"
  | .newResourceFramework => "aws_auditmanager_framework"
  | .newResourceFrameworkShare => "aws_auditmanager_framework_share"

/-- The resource type and identifying attributes of a descriptor, as text. -/
def Sweepable.context (d : Sweepable) : String :=
  d.factory.typeName ++ " (" ++ ", ".intercalate (d.attrs.map fun a => a.path ++ "=" ++ a.value)
    ++ "): "

/-- Modelled from the spec: the entry the delete orchestrator records for a descriptor
whose delete failed with `err`.  Spec 4.3 asks for "enough context (resource type +
identifying attributes)": the entry wraps `err` behind that context. -/
def deleteFailure (d : Sweepable) (err : GoError) : GoError :=
  .wrapError d.context err

/-- Modelled from the spec: the delete orchestrator `sweep.SweepOrchestratorWithContext`
of package `internal/sweep`, which is not among the sources.  Spec 4.3: it executes the
delete of every descriptor, an individual failure does not abort the batch, and it returns
one aggregated error, nil when every deletion succeeded, which otherwise enumerates every
failure.  `delete` gives the result of each descriptor's delete. -/
def sweep.SweepOrchestratorWithContext (delete : Sweepable → Option GoError)
    (sweepResources : List Sweepable) : Option GoError :=
  multierror.ErrorOrNil
    (some (sweepResources.filterMap fun d => (delete d).map (deleteFailure d)))

/-- The descriptors of a batch whose delete fails. -/
def failedDeletes (delete : Sweepable → Option GoError) (batch : List Sweepable) :
    List Sweepable :=
  batch.filter fun d => (delete d).isSome

/-! ## The documentation of `isCompleteSetupError` -/

/-- Does `text` begin with `pat`. -/
def startsWith : List Char → List Char → Bool
  | [], _ => true
  | _ :: _, [] => false
  | p :: ps, c :: cs => p == c && startsWith ps cs

/-- Does `pat` occur in `text`. -/
def occursIn (pat : List Char) : List Char → Bool
  | [] => pat.isEmpty
  | c :: cs => startsWith pat (c :: cs) || occursIn pat cs

/-- Following the documentation comment of `isCompleteSetupError`: does the error
message say that Audit Manager has yet to be set up in the account and region, as in
"Please complete AWS Audit Manager setup from home page to enable this action in this
account." -/
def indicatesSetupIncomplete (message : String) : Bool :=
  occursIn "Please complete AWS Audit Manager setup".toList message.toList

/-! ## channel_test.go -/

/-- `terraform.InstanceState`, with the field the checks read. -/
structure InstanceState where
  ID : String
  deriving DecidableEq, Repr

/-- `terraform.ResourceState`, with the fields the checks read (`Type_` is `Type`). -/
structure ResourceState where
  Type_ : String
  Primary : InstanceState
  deriving DecidableEq, Repr

/-- `medialive.DescribeChannelOutput`, with the fields the checks read. -/
structure DescribeChannelOutput where
  Id : Option String
  State : String
  deriving DecidableEq, Repr

/-- The `action` argument of `create.Error`. -/
inductive ErrAction where
  | ErrActionChecking
  | ErrActionCheckingDestroyed
  | ErrActionCheckingExistence
  deriving DecidableEq, Repr

/-- The answers of the surroundings to a test check. -/
structure TestWorld where
  /-- The result of `tfmedialive.FindChannelByID(ctx, conn, id)`. -/
  FindChannelByID : String → Except GoError DescribeChannelOutput
  /-- The verdict of `tfresource.NotFound(err)`. -/
  NotFound : Option GoError → Bool
  /-- The message `create.Error` puts before the message of the error it is given, for
  `names.MediaLive`, the action, `tfmedialive.ResNameChannel` and the id. -/
  problemMessage : ErrAction → String → String

/-- `create.Error(names.MediaLive, action, tfmedialive.ResNameChannel, id, gotError)`.
Package `internal/create` is outside the sources at hand, so the value stands for the
call itself: it records the message put in front and the error handed in, and its
message is the one followed by the message of the other.  Whether `errors.Is` or
`errors.Unwrap` reaches `gotError` through the real value is a property of that package;
nothing proved about the checks uses it. -/
def create.Error (w : TestWorld) (action : ErrAction) (id : String) (gotError : GoError) :
    GoError :=
  .wrapError (w.problemMessage action id) gotError

/-- The result of a test check: the error it returns and the ids it looked up. -/
structure CheckOutcome where
  ret : Option GoError
  lookups : List String
  deriving DecidableEq, Repr

/-- The loop of `testAccCheckChannelDestroy` over `s.RootModule().Resources`, given as
the entries in the order the `range` statement visits them. -/
def testAccCheckChannelDestroy.run (w : TestWorld) :
    List (String × ResourceState) → List String → CheckOutcome
  | [], lookups => ⟨none, lookups⟩
  | (_, rs) :: rest, lookups =>
    if rs.Type_ != "aws_medialive_channel" then
      testAccCheckChannelDestroy.run w rest lookups
    else
      let lookups := lookups ++ [rs.Primary.ID]
      match w.FindChannelByID rs.Primary.ID with
      | .ok _ =>
        -- `err` is nil
        if w.NotFound none then testAccCheckChannelDestroy.run w rest lookups
        else testAccCheckChannelDestroy.run w rest lookups
      | .error err =>
        if w.NotFound (some err) then testAccCheckChannelDestroy.run w rest lookups
        else ⟨some (create.Error w .ErrActionCheckingDestroyed rs.Primary.ID err), lookups⟩

/-- The check function `testAccCheckChannelDestroy(ctx)` returns, applied to a state. -/
def testAccCheckChannelDestroy (w : TestWorld) (resources : List (String × ResourceState)) :
    CheckOutcome :=
  testAccCheckChannelDestroy.run w resources []

/-- The check function `testAccCheckChannelStatus(ctx, name, state)` returns, applied to a
state; `types.ChannelState` is a string type. -/
def testAccCheckChannelStatus (w : TestWorld) (name : String) (state : String)
    (resources : List (String × ResourceState)) : CheckOutcome :=
  match resources.lookup name with
  | none => ⟨some (create.Error w .ErrActionChecking name (.errorString "not found")), []⟩
  | some rs =>
    if rs.Primary.ID = "" then
      ⟨some (create.Error w .ErrActionChecking name (.errorString "not set")), []⟩
    else
      match w.FindChannelByID rs.Primary.ID with
      | .error err => ⟨some (create.Error w .ErrActionChecking rs.Primary.ID err), [rs.Primary.ID]⟩
      | .ok resp =>
        if resp.State != state then
          ⟨some (create.Error w .ErrActionChecking rs.Primary.ID
            (.errorString ("not (" ++ state ++ ") got: " ++ resp.State))), [rs.Primary.ID]⟩
        else ⟨none, [rs.Primary.ID]⟩

/-! ## The registrations of `init` -/

/-- `resource.Sweeper`; the function `F` is given by its kind. -/
structure Sweeper where
  Name : String
  F : SweepKind
  Dependencies : List String
  deriving DecidableEq, Repr

/-- The calls `resource.AddTestSweepers(name, sweeper)` that `init` makes, in order. -/
def init : List (String × Sweeper) :=
  [("aws_auditmanager_assessment",
      ⟨"aws_auditmanager_assessment", .Assessments,
        ["aws_auditmanager_control", "aws_auditmanager_framework", "aws_iam_role",
         "aws_s3_bucket"]⟩),
   ("aws_auditmanager_assessment_delegation",
      ⟨"aws_auditmanager_assessment_delegation", .AssessmentDelegations, []⟩),
   ("aws_auditmanager_assessment_report",
      ⟨"aws_auditmanager_assessment_report", .AssessmentReports, []⟩),
   ("aws_auditmanager_control", ⟨"aws_auditmanager_control", .Controls, []⟩),
   ("aws_auditmanager_framework", ⟨"aws_auditmanager_framework", .Frameworks, []⟩),
   ("aws_auditmanager_framework_share",
      ⟨"aws_auditmanager_framework_share", .FrameworkShares, []⟩)]

/-- The dependencies declared by the sweeper registered under `name`. -/
def dependenciesOf (name : String) : Option (List String) :=
  (init.lookup name).map fun sweeper => sweeper.Dependencies

/-! ## Paginators -/

/-- A paginator as the page loop uses it: `HasMorePages()` and `NextPage(ctx)`, on the
state `σ` the paginator keeps between calls. -/
structure Paginator (σ Item : Type) where
  HasMorePages : σ → Bool
  NextPage : σ → PageResult Item × σ

/-- The results of the `NextPage` calls that the loop
`for pages.HasMorePages() { page, err := pages.NextPage(ctx); ... }` makes from state
`s`: it calls `NextPage` as long as `HasMorePages` holds and no call has failed.  `none`
when the loop is still running after `fuel` calls. -/
def Paginator.results {σ Item : Type} (p : Paginator σ Item) :
    Nat → σ → Option (List (PageResult Item))
  | 0, s => if p.HasMorePages s then none else some []
  | fuel + 1, s =>
    if p.HasMorePages s then
      match p.NextPage s with
      | (.error e, _) => some [.error e]
      | (.ok items, s') => (p.results fuel s').map fun rest => .ok items :: rest
    else some []

/-- The paginator, started in state `s`, hands out the pages `ps` without error and then
signals exhaustion: `HasMorePages` is true before each of them and false after the last. -/
def Paginator.exhaustsAfter {σ Item : Type} (p : Paginator σ Item) : σ → List (List Item) → Prop
  | s, [] => p.HasMorePages s = false
  | s, items :: rest =>
    p.HasMorePages s = true ∧ (p.NextPage s).1 = .ok items
      ∧ p.exhaustsAfter (p.NextPage s).2 rest

/-- The number of `NextPage` results a page loop consumes: all of them up to and including
the first error. -/
def fetched {Item : Type} : List (PageResult Item) → Nat
  | [] => 0
  | .ok _ :: rest => fetched rest + 1
  | .error _ :: _ => 1

/-- A paginator over fixed pages: its state is the number of pages handed out. -/
def pagerOver {Item : Type} (pages : List (List Item)) : Paginator Nat Item where
  HasMorePages := fun i => decide (i < pages.length)
  NextPage := fun i => (.ok (pages.getD i []), i + 1)

/-! ## Deletes against the remote objects -/

/-- Modelled from the spec: the delete of descriptor `d` against the remote objects
`remote` (each named by its descriptor).  Spec 4.3 and 7: "delete-on-missing is treated as
success"; the delete of an object that exists succeeds or fails as `attempt` says. -/
def deleteOnRemote (remote : List Sweepable) (attempt : Sweepable → Option GoError)
    (d : Sweepable) : Option GoError :=
  if d ∈ remote then attempt d else none

/-- Modelled from the spec: the remote objects left after the orchestrator ran over
`batch`: an object is gone when it was in the batch and its delete succeeded. -/
def remoteAfter (remote : List Sweepable) (attempt : Sweepable → Option GoError)
    (batch : List Sweepable) : List Sweepable :=
  remote.filter fun d => !(decide (d ∈ batch) && (attempt d).isNone)

/-! ## One sweep procedure -/

/-- Following the spec (section 9), the "listing + descriptor + generic delete" triple
as one procedure: the page loop and final statements of a sweep, for any list input
`input`, descriptor builder `describe` and resource label `label`. -/
def sweepProcedure.run {Item : Type} (input : ListInput)
    (describe : Option AWSClient → Item → Sweepable) (label : String) (w : World Item)
    (region : String) : List (PageResult Item) → List Sweepable → List Call → Outcome
  | [], sweepResources, calls =>
    let calls := calls ++ [Call.SweepOrchestratorWithContext sweepResources]
    let errs : Option (List GoError) :=
      match w.SweepOrchestratorWithContext sweepResources with
      | some err =>
        multierror.Append none
          (fmt.Errorf ("error sweeping AuditManager " ++ label ++ " for " ++ region ++ ": ") err)
      | none => none
    if sweep.SkipSweepError w.skipSignal w.clientErr then ⟨none, calls⟩
    else ⟨multierror.ErrorOrNil errs, calls⟩
  | page :: pages, sweepResources, calls =>
    let calls := calls ++ [Call.NextPage input]
    if sweep.SkipSweepError w.skipSignal page.err || isCompleteSetupError page.err then
      ⟨none, calls⟩
    else
      match page with
      | .error err =>
        ⟨some (fmt.Errorf ("error retrieving AuditManager " ++ label ++ ": ") err), calls⟩
      | .ok items =>
        sweepProcedure.run input describe label w region pages
          (sweepResources ++ items.map (describe w.client)) calls

/-- The one sweep procedure, started on the page results of the world. -/
def sweepProcedure {Item : Type} (input : ListInput)
    (describe : Option AWSClient → Item → Sweepable) (label : String) (w : World Item)
    (region : String) : Outcome :=
  sweepProcedure.run input describe label w region w.pages [] []

/-! ## The unwrap chain of an error -/

mutual
/-- The errors `errors.As` and `errors.Is` visit from `err`: `err` itself and, through
`Unwrap`, the error a `fmt.Errorf` wrapper wraps and every entry of a
`*multierror.Error`, each with its own chain. -/
def GoError.chain : GoError → List GoError
  | .AccessDeniedException m => [.AccessDeniedException m]
  | .GenericAPIError c m => [.GenericAPIError c m]
  | .errorString s => [.errorString s]
  | .wrapError f e => .wrapError f e :: GoError.chain e
  | .multi es => .multi es :: GoError.chainAll es
/-- The chains of the entries of a list, one after the other. -/
def GoError.chainAll : List GoError → List GoError
  | [] => []
  | e :: es => GoError.chain e ++ GoError.chainAll es
end

/-- Is the error value an `*types.AccessDeniedException`. -/
def GoError.isAccessDeniedException : GoError → Bool
  | .AccessDeniedException _ => true
  | _ => false

/-- An error wrapped `depth` times by `fmt.Errorf("wrapped: %w", err)`. -/
def wrapTimes : Nat → GoError → GoError
  | 0, e => e
  | depth + 1, e => .wrapError "wrapped: " (wrapTimes depth e)

/-! ## Concrete worlds -/

/-- A world where nothing is a skip signal, client acquisition succeeded in `us-west-2`,
and the orchestrator is the one of the spec over `delete`. -/
def worldOf {Item : Type} (pages : List (PageResult Item))
    (delete : Sweepable → Option GoError) : World Item where
  skipSignal := fun _ => false
  client := some ⟨"us-west-2"⟩
  clientErr := none
  pages := pages
  SweepOrchestratorWithContext := sweep.SweepOrchestratorWithContext delete

/-- A world like `worldOf` in which errors with code `UnsupportedOperation` are skip
signals. -/
def worldSkipping {Item : Type} (pages : List (PageResult Item))
    (delete : Sweepable → Option GoError) : World Item where
  skipSignal := fun e =>
    match e with
    | .GenericAPIError "UnsupportedOperation" _ => true
    | _ => false
  client := some ⟨"us-west-2"⟩
  clientErr := none
  pages := pages
  SweepOrchestratorWithContext := sweep.SweepOrchestratorWithContext delete

/-- Every delete succeeds. -/
def deleteAll : Sweepable → Option GoError := fun _ => none

/-- Every delete fails with a throttling error. -/
def deleteNone : Sweepable → Option GoError :=
  fun _ => some (.GenericAPIError "ThrottlingException" "Rate exceeded")

/-- The access-denied error of an account in which Audit Manager is not set up. -/
def setupError : GoError :=
  .AccessDeniedException
    "Please complete AWS Audit Manager setup from home page to enable this action in this account."

/-- The message of the access-denied error for a caller without the permission to list
assessments. -/
def permissionMessage : String :=
  "User: arn:aws:iam::123456789012:user/sweeper is not authorized to perform: auditmanager:ListAssessments"

/-- The access-denied error of a caller without the permission to list assessments. -/
def permissionError : GoError :=
  .AccessDeniedException permissionMessage

/-- A test world in which channel `1234567` still exists. -/
def channelStillThere : TestWorld where
  FindChannelByID := fun id =>
    if id = "1234567" then .ok ⟨some "1234567", "IDLE"⟩
    else .error (.GenericAPIError "NotFoundException" "channel not found")
  NotFound := fun err =>
    match err with
    | some (.GenericAPIError "NotFoundException" _) => true
    | _ => false
  problemMessage := fun _ id => "checking MediaLive Channel (" ++ id ++ "): "

/-- A world in which errors with code `UnsupportedOperation` are skip signals, with the
given result of client acquisition and the given orchestrator. -/
def worldWith {Item : Type} (client : Option AWSClient) (clientErr : Option GoError)
    (pages : List (PageResult Item)) (orchestrator : List Sweepable → Option GoError) :
    World Item where
  skipSignal := fun e =>
    match e with
    | .GenericAPIError "UnsupportedOperation" _ => true
    | _ => false
  client := client
  clientErr := clientErr
  pages := pages
  SweepOrchestratorWithContext := orchestrator

/-- The error of an operation the partition does not support, a skip signal of
`worldWith`. -/
def unsupportedError : GoError :=
  .GenericAPIError "UnsupportedOperation" "not supported in this partition"

/-- A test world with channel `1234567` in state `RUNNING`; looking up `7654321` is
throttled, any other id is not found. -/
def channelRunning : TestWorld where
  FindChannelByID := fun id =>
    if id = "1234567" then .ok ⟨some "1234567", "RUNNING"⟩
    else if id = "7654321" then .error (.GenericAPIError "TooManyRequestsException" "slow down")
    else .error (.GenericAPIError "NotFoundException" "channel not found")
  NotFound := fun err =>
    match err with
    | some (.GenericAPIError "NotFoundException" _) => true
    | _ => false
  problemMessage := fun _ id => "checking MediaLive Channel (" ++ id ++ "): "

/-- The delete of the object with id `a1` succeeds, every other delete is throttled. -/
def deleteOnlyFirst : Sweepable → Option GoError := fun d =>
  if d.attrs = [⟨"id", "a1"⟩] then none
  else some (.GenericAPIError "ThrottlingException" "Rate exceeded")

/-- The descriptor `sweepAssessments` builds in `us-west-2` for the assessment `id`. -/
def assessmentIn (id : String) : Sweepable :=
  ⟨.newResourceAssessment, some ⟨"us-west-2"⟩, [⟨"id", id⟩]⟩

/-- A listed summary of each kind, with id `x1` (and parent assessment `p1`). -/
def SweepKind.sampleItem : (k : SweepKind) → k.Item
  | .Assessments => ⟨some "x1"⟩
  | .AssessmentDelegations => ⟨some "x1", some "p1"⟩
  | .AssessmentReports => ⟨some "x1", some "p1"⟩
  | .Controls => ⟨some "x1"⟩
  | .Frameworks => ⟨some "x1"⟩
  | .FrameworkShares => ⟨some "x1"⟩

/-! ## Formatting, for the formats of channel_test.go -/

/-- The lines of a raw string, put together again with a newline between them. -/
def unlinesChars : List String → List Char
  | [] => []
  | [l] => l.toList
  | l :: ls => l.toList ++ '\n' :: unlinesChars ls

/-- The text whose lines are `ls`. -/
def unlines (ls : List String) : String := ⟨unlinesChars ls⟩

/-- An argument of `fmt.Sprintf`; the tests pass strings and booleans. -/
inductive Arg where
  | string (s : String)
  | bool (b : Bool)
  deriving DecidableEq, Repr

/-- The type name `fmt` prints for an argument. -/
def Arg.typeName : Arg → String
  | .string _ => "string"
  | .bool _ => "bool"

/-- An argument printed with the verb `%v`. -/
def Arg.value : Arg → String
  | .string s => s
  | .bool true => "true"
  | .bool false => "false"

/-- The hexadecimal digit of a number below 16. -/
def hexDigit (n : Nat) : Char := "0123456789abcdef".toList.getD n '0'

/-- The escape `strconv.Quote` writes for one character.  Double quote and backslash get a
backslash; printable ASCII stands for itself; the control characters get their letter or
`\x` and two hex digits.  A character outside ASCII is kept, as Go does when
`unicode.IsPrint` holds for it. -/
def strconv.quoteChar (c : Char) : List Char :=
  if c = Char.ofNat 34 ∨ c = Char.ofNat 92 then [Char.ofNat 92, c]
  else if 32 ≤ c.toNat ∧ c.toNat ≠ 127 then [c]
  else if c.toNat = 7 then [Char.ofNat 92, 'a']
  else if c.toNat = 8 then [Char.ofNat 92, 'b']
  else if c.toNat = 12 then [Char.ofNat 92, 'f']
  else if c.toNat = 10 then [Char.ofNat 92, 'n']
  else if c.toNat = 13 then [Char.ofNat 92, 'r']
  else if c.toNat = 9 then [Char.ofNat 92, 't']
  else if c.toNat = 11 then [Char.ofNat 92, 'v']
  else [Char.ofNat 92, 'x', hexDigit (c.toNat / 16), hexDigit (c.toNat % 16)]

/-- The escapes of the characters of a text, one after the other. -/
def strconv.quoteChars : List Char → List Char
  | [] => [Char.ofNat 34]
  | c :: cs => strconv.quoteChar c ++ strconv.quoteChars cs

/-- `strconv.Quote(s)`, which the verb `%q` prints for a string. -/
def strconv.Quote (s : String) : String := ⟨Char.ofNat 34 :: strconv.quoteChars s.toList⟩

/-- One item of a format: a run of plain text, `%%`, a verb with the argument index that
`[n]` gives it (if any), or a `%` at the end of the format. -/
inductive Token where
  | text (s : String)
  | percent
  | verb (index : Option Nat) (c : Char)
  | noVerb
  deriving DecidableEq, Repr

/-- Where the scan of a format stands: in plain text, after `%`, inside `[n` with the
digits read so far, or after `[n]`. -/
inductive ScanState where
  | plain
  | afterPercent
  | inIndex (digits : Option Nat)
  | afterIndex (n : Nat)

/-- The token of the plain text read so far (`acc` holds it reversed), if there is any. -/
def flushText (acc : List Char) : List Token :=
  if acc.isEmpty then [] else [.text ⟨acc.reverse⟩]

/-- Is `c` a verb of the modelled part of `fmt`: an ASCII letter other than `x` and `X`. -/
def isVerb (c : Char) : Bool :=
  (c.isAlpha) && c != 'x' && c != 'X'

/-- The items of a format, read from left to right.  `none` for a format outside the
modelled part of `fmt`: flags, width, precision, the verbs `%x` and `%X`, and an argument
index that is not a plain number in brackets. -/
def scanFormat : List Char → ScanState → List Char → Option (List Token)
  | [], .plain, acc => some (flushText acc)
  | [], .afterPercent, acc => some (flushText acc ++ [.noVerb])
  | [], .inIndex _, _ => none
  | [], .afterIndex _, acc => some (flushText acc ++ [.noVerb])
  | c :: cs, .plain, acc =>
    if c = '%' then scanFormat cs .afterPercent acc else scanFormat cs .plain (c :: acc)
  | c :: cs, .afterPercent, acc =>
    if c = '%' then (scanFormat cs .plain []).map fun ts => flushText acc ++ .percent :: ts
    else if c = '[' then scanFormat cs (.inIndex none) acc
    else if isVerb c then
      (scanFormat cs .plain []).map fun ts => flushText acc ++ .verb none c :: ts
    else none
  | c :: cs, .inIndex digits, acc =>
    if c.isDigit then
      scanFormat cs (.inIndex (some (digits.getD 0 * 10 + (c.toNat - '0'.toNat)))) acc
    else if c = ']' then
      match digits with
      | some n => scanFormat cs (.afterIndex n) acc
      | none => none
    else none
  | c :: cs, .afterIndex n, acc =>
    if isVerb c then
      (scanFormat cs .plain []).map fun ts => flushText acc ++ .verb (some n) c :: ts
    else none

/-- What `fmt` prints for argument `a` under verb `c`: `%s` and `%v` print a string as it
is, `%q` quotes it, `%t` and `%v` print a boolean; any other pairing is reported as
`%!c(type=value)`. -/
def printArg (a : Arg) (c : Char) : String :=
  match a with
  | .string s =>
    if c = 's' ∨ c = 'v' then s
    else if c = 'q' then strconv.Quote s
    else "%!" ++ String.singleton c ++ "(" ++ a.typeName ++ "=" ++ a.value ++ ")"
  | .bool _ =>
    if c = 't' ∨ c = 'v' then a.value
    else "%!" ++ String.singleton c ++ "(" ++ a.typeName ++ "=" ++ a.value ++ ")"

/-- The report `fmt` appends for the arguments no verb has used. -/
def extraArgs (rest : List Arg) : String :=
  "%!(EXTRA " ++ ", ".intercalate (rest.map fun a => a.typeName ++ "=" ++ a.value) ++ ")"

/-- The text `fmt` prints for the items of a format.  `argNum` is the position of the next
argument, `reordered` whether an explicit index has been met.  A verb without index takes
the next argument; a verb with index `n` takes the `n`-th argument and moves on from
there.  Left-over arguments are reported at the end unless an index was met. -/
def renderTokens (args : List Arg) : List Token → Nat → Bool → String
  | [], argNum, reordered =>
    if !reordered && argNum < args.length then extraArgs (args.drop argNum) else ""
  | .text s :: ts, argNum, reordered => s ++ renderTokens args ts argNum reordered
  | .percent :: ts, argNum, reordered => "%" ++ renderTokens args ts argNum reordered
  | .noVerb :: ts, argNum, reordered => "%!(NOVERB)" ++ renderTokens args ts argNum reordered
  | .verb none c :: ts, argNum, reordered =>
    match args[argNum]? with
    | some a => printArg a c ++ renderTokens args ts (argNum + 1) reordered
    | none => "%!" ++ String.singleton c ++ "(MISSING)" ++ renderTokens args ts argNum reordered
  | .verb (some n) c :: ts, argNum, _ =>
    match (if n = 0 then none else args[n - 1]?) with
    | some a => printArg a c ++ renderTokens args ts n true
    | none => "%!" ++ String.singleton c ++ "(BADINDEX)" ++ renderTokens args ts argNum true

/-- `fmt.Sprintf(format, args...)`, for the modelled part of `fmt`. -/
def fmt.Sprintf (format : String) (args : List Arg) : Option String :=
  (scanFormat format.toList .plain []).map fun ts => renderTokens args ts 0 false

/-- `acctest.ConfigCompose(config...)` of package `internal/acctest`, which is not among
the sources: taken to put its arguments one after the other. -/
def acctest.ConfigCompose : List String → String
  | [] => ""
  | conf :: config => conf ++ acctest.ConfigCompose config

/-! ## The configurations of channel_test.go -/

/-- The format string of `testAccChannelConfig_base`, line by line. -/
def testAccChannelConfig_base.format : String :=
  unlines
  ["",
   "resource \"aws_iam_role\" \"test\" \x7b",
   "  name = %[1]q",
   "",
   "  assume_role_policy = jsonencode(\x7b",
   "    Version = \"2012-10-17\"",
   "    Statement = [",
   "      \x7b",
   "        Action = \"sts:AssumeRole\"",
   "        Effect = \"Allow\"",
   "        Sid    = \"\"",
   "        Principal = \x7b",
   "          Service = \"medialive.amazonaws.com\"",
   "        \x7d",
   "      \x7d,",
   "    ]",
   "  \x7d)",
   "",
   "  tags = \x7b",
   "    Name = %[1]q",
   "  \x7d",
   "\x7d",
   "",
   "resource \"aws_iam_role_policy\" \"test\" \x7b",
   "  name = %[1]q",
   "  role = aws_iam_role.test.id",
   "",
   "  policy = jsonencode(\x7b",
   "    Version = \"2012-10-17\"",
   "    Statement = [",
   "      \x7b",
   "        Action = [",
   "          \"ec2:*\",",
   "          \"s3:*\",",
   "          \"mediastore:*\",",
   "          \"mediaconnect:*\",",
   "          \"cloudwatch:*\",",
   "        ]",
   "        Effect   = \"Allow\"",
   "        Resource = \"*\"",
   "      \x7d,",
   "    ]",
   "  \x7d)",
   "\x7d",
   ""]

/-- `testAccChannelConfig_base(rName)`. -/
def testAccChannelConfig_base (rName : String) : Option String :=
  fmt.Sprintf testAccChannelConfig_base.format [.string rName]

/-- The format string of `testAccChannelConfig_baseS3`, line by line. -/
def testAccChannelConfig_baseS3.format : String :=
  unlines
  ["",
   "resource \"aws_s3_bucket\" \"test1\" \x7b",
   "  bucket = \"%[1]s-1\"",
   "\x7d",
   "",
   "resource \"aws_s3_bucket\" \"test2\" \x7b",
   "  bucket = \"%[1]s-2\"",
   "\x7d",
   ""]

/-- `testAccChannelConfig_baseS3(rName)`. -/
def testAccChannelConfig_baseS3 (rName : String) : Option String :=
  fmt.Sprintf testAccChannelConfig_baseS3.format [.string rName]

/-- The format string of `testAccChannelConfig_baseMultiplex`, line by line. -/
def testAccChannelConfig_baseMultiplex.format : String :=
  unlines
  ["",
   "resource \"aws_medialive_input_security_group\" \"test\" \x7b",
   "  whitelist_rules \x7b",
   "    cidr = \"10.0.0.8/32\"",
   "  \x7d",
   "",
   "  tags = \x7b",
   "    Name = %[1]q",
   "  \x7d",
   "\x7d",
   "",
   "resource \"aws_medialive_input\" \"test\" \x7b",
   "  name                  = %[1]q",
   "  input_security_groups = [aws_medialive_input_security_group.test.id]",
   "  type                  = \"UDP_PUSH\"",
   "",
   "  tags = \x7b",
   "    Name = %[1]q",
   "  \x7d",
   "\x7d",
   "",
   "",
   ""]

/-- `testAccChannelConfig_baseMultiplex(rName)`. -/
def testAccChannelConfig_baseMultiplex (rName : String) : Option String :=
  fmt.Sprintf testAccChannelConfig_baseMultiplex.format [.string rName]

/-- The format string of `testAccChannelConfig_basic`, line by line. -/
def testAccChannelConfig_basic.format : String :=
  unlines
  ["",
   "resource \"aws_medialive_channel\" \"test\" \x7b",
   "  name          = %[1]q",
   "  channel_class = \"STANDARD\"",
   "  role_arn      = aws_iam_role.test.arn",
   "",
   "  input_specification \x7b",
   "    codec            = \"AVC\"",
   "    input_resolution = \"HD\"",
   "    maximum_bitrate  = \"MAX_20_MBPS\"",
   "  \x7d",
   "",
   "  input_attachments \x7b",
   "    input_attachment_name = \"example-input1\"",
   "    input_id              = aws_medialive_input.test.id",
   "  \x7d",
   "",
   "  destinations \x7b",
   "    id = %[1]q",
   "",
   "    settings \x7b",
   "      url = \"s3://$\x7baws_s3_bucket.test1.id\x7d/test1\"",
   "    \x7d",
   "",
   "    settings \x7b",
   "      url = \"s3://$\x7baws_s3_bucket.test2.id\x7d/test2\"",
   "    \x7d",
   "  \x7d",
   "",
   "  encoder_settings \x7b",
   "    timecode_config \x7b",
   "      source = \"EMBEDDED\"",
   "    \x7d",
   "",
   "    audio_descriptions \x7b",
   "      audio_selector_name = %[1]q",
   "      name                = %[1]q",
   "    \x7d",
   "",
   "    video_descriptions \x7b",
   "      name = \"test-video-name\"",
   "    \x7d",
   "",
   "    output_groups \x7b",
   "      output_group_settings \x7b",
   "        archive_group_settings \x7b",
   "          destination \x7b",
   "            destination_ref_id = %[1]q",
   "          \x7d",
   "        \x7d",
   "      \x7d",
   "",
   "      outputs \x7b",
   "        output_name             = \"test-output-name\"",
   "        video_description_name  = \"test-video-name\"",
   "        audio_description_names = [%[1]q]",
   "        output_settings \x7b",
   "          archive_output_settings \x7b",
   "            name_modifier = \"_1\"",
   "            extension     = \"m2ts\"",
   "            container_settings \x7b",
   "              m2ts_settings \x7b",
   "                audio_buffer_model = \"ATSC\"",
   "                buffer_model       = \"MULTIPLEX\"",
   "                rate_mode          = \"CBR\"",
   "              \x7d",
   "            \x7d",
   "          \x7d",
   "        \x7d",
   "      \x7d",
   "    \x7d",
   "  \x7d",
   "\x7d",
   ""]

/-- `testAccChannelConfig_basic(rName)`. -/
def testAccChannelConfig_basic (rName : String) : Option String := do
  let base ← testAccChannelConfig_base rName
  let baseS3 ← testAccChannelConfig_baseS3 rName
  let baseMultiplex ← testAccChannelConfig_baseMultiplex rName
  let channel ← fmt.Sprintf testAccChannelConfig_basic.format [.string rName]
  pure (acctest.ConfigCompose [base, baseS3, baseMultiplex, channel])

/-- The format string of `testAccChannelConfig_videoDescriptionCodecSettingsH264Settings`, line by line. -/
def testAccChannelConfig_videoDescriptionCodecSettingsH264Settings.format : String :=
  unlines
  ["",
   "resource \"aws_medialive_channel\" \"test\" \x7b",
   "  name          = %[1]q",
   "  channel_class = \"STANDARD\"",
   "  role_arn      = aws_iam_role.test.arn",
   "",
   "  input_specification \x7b",
   "    codec            = \"AVC\"",
   "    input_resolution = \"HD\"",
   "    maximum_bitrate  = \"MAX_20_MBPS\"",
   "  \x7d",
   "",
   "  input_attachments \x7b",
   "    input_attachment_name = \"example-input1\"",
   "    input_id              = aws_medialive_input.test.id",
   "  \x7d",
   "",
   "  destinations \x7b",
   "    id = %[1]q",
   "",
   "    settings \x7b",
   "      url = \"s3://$\x7baws_s3_bucket.test1.id\x7d/test1\"",
   "    \x7d",
   "",
   "    settings \x7b",
   "      url = \"s3://$\x7baws_s3_bucket.test2.id\x7d/test2\"",
   "    \x7d",
   "  \x7d",
   "",
   "  encoder_settings \x7b",
   "    timecode_config \x7b",
   "      source = \"EMBEDDED\"",
   "    \x7d",
   "",
   "    audio_descriptions \x7b",
   "      audio_selector_name = %[1]q",
   "      name                = %[1]q",
   "      codec_settings \x7b",
   "        aac_settings \x7b",
   "          rate_control_mode = \"CBR\"",
   "        \x7d",
   "      \x7d",
   "    \x7d",
   "",
   "    video_descriptions \x7b",
   "      name             = \"test-video-name\"",
   "      respond_to_afd   = \"NONE\"",
   "      sharpness        = 100",
   "      scaling_behavior = \"DEFAULT\"",
   "      width            = 1280",
   "      height           = 720",
   "      codec_settings \x7b",
   "        h264_settings \x7b",
   "          afd_signaling           = \"NONE\"",
   "          color_metadata          = \"IGNORE\"",
   "          adaptive_quantization   = \"LOW\"",
   "          bitrate                 = \"5400000\"",
   "          buf_size                = \"10800000\"",
   "          buf_fill_pct            = 90",
   "          entropy_encoding        = \"CABAC\"",
   "          flicker_aq              = \"ENABLED\"",
   "          force_field_pictures    = \"DISABLED\"",
   "          framerate_control       = \"SPECIFIED\"",
   "          framerate_numerator     = 50",
   "          framerate_denominator   = 1",
   "          gop_b_reference         = \"DISABLED\"",
   "          gop_closed_cadence      = 1",
   "          gop_num_b_frames        = 1",
   "          gop_size                = 1.92",
   "          gop_size_units          = \"SECONDS\"",
   "          subgop_length           = \"FIXED\"",
   "          scan_type               = \"PROGRESSIVE\"",
   "          level                   = \"H264_LEVEL_AUTO\"",
   "          look_ahead_rate_control = \"HIGH\"",
   "          num_ref_frames          = 3",
   "          par_control             = \"INITIALIZE_FROM_SOURCE\"",
   "          profile                 = \"HIGH\"",
   "          rate_control_mode       = \"CBR\"",
   "          syntax                  = \"DEFAULT\"",
   "          scene_change_detect     = \"ENABLED\"",
   "          slices                  = 1",
   "          spatial_aq              = \"ENABLED\"",
   "          temporal_aq             = \"ENABLED\"",
   "          timecode_insertion      = \"PIC_TIMING_SEI\"",
   "        \x7d",
   "      \x7d",
   "    \x7d",
   "",
   "    output_groups \x7b",
   "      output_group_settings \x7b",
   "        archive_group_settings \x7b",
   "          destination \x7b",
   "            destination_ref_id = %[1]q",
   "          \x7d",
   "        \x7d",
   "      \x7d",
   "",
   "      outputs \x7b",
   "        output_name             = \"test-output-name\"",
   "        video_description_name  = \"test-video-name\"",
   "        audio_description_names = [%[1]q]",
   "        output_settings \x7b",
   "          archive_output_settings \x7b",
   "            name_modifier = \"_1\"",
   "            extension     = \"m2ts\"",
   "            container_settings \x7b",
   "              m2ts_settings \x7b",
   "                audio_buffer_model = \"ATSC\"",
   "                buffer_model       = \"MULTIPLEX\"",
   "                rate_mode          = \"CBR\"",
   "              \x7d",
   "            \x7d",
   "          \x7d",
   "        \x7d",
   "      \x7d",
   "    \x7d",
   "  \x7d",
   "\x7d",
   ""]

/-- `testAccChannelConfig_videoDescriptionCodecSettingsH264Settings(rName)`. -/
def testAccChannelConfig_videoDescriptionCodecSettingsH264Settings (rName : String) : Option String := do
  let base ← testAccChannelConfig_base rName
  let baseS3 ← testAccChannelConfig_baseS3 rName
  let baseMultiplex ← testAccChannelConfig_baseMultiplex rName
  let channel ← fmt.Sprintf testAccChannelConfig_videoDescriptionCodecSettingsH264Settings.format [.string rName]
  pure (acctest.ConfigCompose [base, baseS3, baseMultiplex, channel])

/-- The format string of `testAccChannelConfig_videoDescriptionCodecSettingsH265Settings`, line by line. -/
def testAccChannelConfig_videoDescriptionCodecSettingsH265Settings.format : String :=
  unlines
  ["",
   "resource \"aws_medialive_channel\" \"test\" \x7b",
   "  name          = %[1]q",
   "  channel_class = \"STANDARD\"",
   "  role_arn      = aws_iam_role.test.arn",
   "",
   "  input_specification \x7b",
   "    codec            = \"AVC\"",
   "    input_resolution = \"HD\"",
   "    maximum_bitrate  = \"MAX_20_MBPS\"",
   "  \x7d",
   "",
   "  input_attachments \x7b",
   "    input_attachment_name = \"example-input1\"",
   "    input_id              = aws_medialive_input.test.id",
   "  \x7d",
   "",
   "  destinations \x7b",
   "    id = %[1]q",
   "",
   "    settings \x7b",
   "      url = \"s3://$\x7baws_s3_bucket.test1.id\x7d/test1\"",
   "    \x7d",
   "",
   "    settings \x7b",
   "      url = \"s3://$\x7baws_s3_bucket.test2.id\x7d/test2\"",
   "    \x7d",
   "  \x7d",
   "",
   "  encoder_settings \x7b",
   "    timecode_config \x7b",
   "      source = \"EMBEDDED\"",
   "    \x7d",
   "",
   "    audio_descriptions \x7b",
   "      audio_selector_name = %[1]q",
   "      name                = %[1]q",
   "      codec_settings \x7b",
   "        aac_settings \x7b",
   "          rate_control_mode = \"CBR\"",
   "        \x7d",
   "      \x7d",
   "    \x7d",
   "",
   "    video_descriptions \x7b",
   "      name             = \"test-video-name\"",
   "      respond_to_afd   = \"NONE\"",
   "      sharpness        = 100",
   "      scaling_behavior = \"DEFAULT\"",
   "      width            = 1280",
   "      height           = 720",
   "      codec_settings \x7b",
   "        h265_settings \x7b",
   "          bitrate  = \"5400000\"",
   "          buf_size = \"20000000\"",
   "",
   "          framerate_numerator   = 50",
   "          framerate_denominator = 1",
   "",
   "          color_metadata        = \"IGNORE\"",
   "          adaptive_quantization = \"LOW\"",
   "",
   "          flicker_aq = \"ENABLED\"",
   "",
   "          afd_signaling = \"FIXED\"",
   "          fixed_afd     = \"AFD_0000\"",
   "",
   "          gop_closed_cadence = 1",
   "          gop_size           = 1.92",
   "          gop_size_units     = \"SECONDS\"",
   "          min_i_interval     = 6",
   "          scan_type          = \"PROGRESSIVE\"",
   "",
   "          level                   = \"H265_LEVEL_AUTO\"",
   "          look_ahead_rate_control = \"HIGH\"",
   "          profile                 = \"MAIN_10BIT\"",
   "",
   "          rate_control_mode   = \"CBR\"",
   "          scene_change_detect = \"ENABLED\"",
   "",
   "          slices = 2",
   "          tier   = \"HIGH\"",
   "",
   "          timecode_insertion = \"DISABLED\"",
   "",
   "          color_space_settings \x7b",
   "            hdr10_settings \x7b",
   "              max_cll  = 16",
   "              max_fall = 16",
   "            \x7d",
   "          \x7d",
   "",
   "          filter_settings \x7b",
   "            temporal_filter_settings \x7b",
   "              post_filter_sharpening = \"AUTO\"",
   "              strength               = \"STRENGTH_1\"",
   "            \x7d",
   "          \x7d",
   "",
   "          timecode_burnin_settings \x7b",
   "            timecode_burnin_font_size = \"SMALL_16\"",
   "            timecode_burnin_position  = \"BOTTOM_CENTER\"",
   "            prefix                    = \"terraform-test\"",
   "          \x7d",
   "        \x7d",
   "      \x7d",
   "    \x7d",
   "",
   "    output_groups \x7b",
   "      output_group_settings \x7b",
   "        archive_group_settings \x7b",
   "          destination \x7b",
   "            destination_ref_id = %[1]q",
   "          \x7d",
   "        \x7d",
   "      \x7d",
   "",
   "      outputs \x7b",
   "        output_name             = %[1]q",
   "        video_description_name  = \"test-video-name\"",
   "        audio_description_names = [%[1]q]",
   "        output_settings \x7b",
   "          archive_output_settings \x7b",
   "            name_modifier = \"_1\"",
   "            extension     = \"m2ts\"",
   "            container_settings \x7b",
   "              m2ts_settings \x7b",
   "                audio_buffer_model = \"ATSC\"",
   "                buffer_model       = \"MULTIPLEX\"",
   "                rate_mode          = \"CBR\"",
   "              \x7d",
   "            \x7d",
   "          \x7d",
   "        \x7d",
   "      \x7d",
   "    \x7d",
   "  \x7d",
   "\x7d",
   ""]

/-- `testAccChannelConfig_videoDescriptionCodecSettingsH265Settings(rName)`. -/
def testAccChannelConfig_videoDescriptionCodecSettingsH265Settings (rName : String) : Option String := do
  let base ← testAccChannelConfig_base rName
  let baseS3 ← testAccChannelConfig_baseS3 rName
  let baseMultiplex ← testAccChannelConfig_baseMultiplex rName
  let channel ← fmt.Sprintf testAccChannelConfig_videoDescriptionCodecSettingsH265Settings.format [.string rName]
  pure (acctest.ConfigCompose [base, baseS3, baseMultiplex, channel])

/-- The format string of `testAccChannelConfig_update`, line by line. -/
def testAccChannelConfig_update.format : String :=
  unlines
  ["",
   "resource \"aws_medialive_channel\" \"test\" \x7b",
   "  name          = %[2]q",
   "  channel_class = \"STANDARD\"",
   "  role_arn      = aws_iam_role.test.arn",
   "",
   "  input_specification \x7b",
   "    codec            = %[3]q",
   "    input_resolution = %[4]q",
   "    maximum_bitrate  = \"MAX_20_MBPS\"",
   "  \x7d",
   "",
   "  input_attachments \x7b",
   "    input_attachment_name = \"example-input1\"",
   "    input_id              = aws_medialive_input.test.id",
   "  \x7d",
   "",
   "  destinations \x7b",
   "    id = \"destination1\"",
   "",
   "    settings \x7b",
   "      url = \"s3://$\x7baws_s3_bucket.test1.id\x7d/test1\"",
   "    \x7d",
   "",
   "    settings \x7b",
   "      url = \"s3://$\x7baws_s3_bucket.test2.id\x7d/test2\"",
   "    \x7d",
   "  \x7d",
   "",
   "  encoder_settings \x7b",
   "    timecode_config \x7b",
   "      source = \"EMBEDDED\"",
   "    \x7d",
   "",
   "    audio_descriptions \x7b",
   "      audio_selector_name = \"test-audio-selector\"",
   "      name                = \"test-audio-description\"",
   "    \x7d",
   "",
   "    video_descriptions \x7b",
   "      name = \"test-video-name\"",
   "    \x7d",
   "",
   "    output_groups \x7b",
   "      output_group_settings \x7b",
   "        archive_group_settings \x7b",
   "          destination \x7b",
   "            destination_ref_id = \"destination1\"",
   "          \x7d",
   "        \x7d",
   "      \x7d",
   "",
   "      outputs \x7b",
   "        output_name             = \"test-output-name\"",
   "        video_description_name  = \"test-video-name\"",
   "        audio_description_names = [\"test-audio-description\"]",
   "        output_settings \x7b",
   "          archive_output_settings \x7b",
   "            name_modifier = \"_1\"",
   "            extension     = \"m2ts\"",
   "            container_settings \x7b",
   "              m2ts_settings \x7b",
   "                audio_buffer_model = \"ATSC\"",
   "                buffer_model       = \"MULTIPLEX\"",
   "                rate_mode          = \"CBR\"",
   "              \x7d",
   "            \x7d",
   "          \x7d",
   "        \x7d",
   "      \x7d",
   "    \x7d",
   "  \x7d",
   "\x7d",
   ""]

/-- `testAccChannelConfig_update(rName, rNameUpdated, codec, inputResolution)`. -/
def testAccChannelConfig_update (rName rNameUpdated codec inputResolution : String) : Option String := do
  let base ← testAccChannelConfig_base rName
  let baseS3 ← testAccChannelConfig_baseS3 rName
  let baseMultiplex ← testAccChannelConfig_baseMultiplex rName
  let channel ← fmt.Sprintf testAccChannelConfig_update.format
    [.string rName, .string rNameUpdated, .string codec, .string inputResolution]
  pure (acctest.ConfigCompose [base, baseS3, baseMultiplex, channel])

/-- The format string of `testAccChannelConfig_mediaPackageOutputSetting`, line by line. -/
def testAccChannelConfig_mediaPackageOutputSetting.format : String :=
  unlines
  ["",
   "locals \x7b",
   "  resource_prefix = \"perpetual-drift-test\"",
   "\x7d",
   "",
   "terraform \x7b",
   "  required_version = \"1.4.6\"",
   "",
   "  required_providers \x7b",
   "    aws = \x7b",
   "      source  = \"hashicorp/aws\"",
   "      version = \"4.67\"",
   "    \x7d",
   "  \x7d",
   "\x7d",
   "",
   "resource \"aws_iam_role\" \"example\" \x7b",
   "  name                 = \"$\x7blocal.resource_prefix\x7d-medialive-role\"",
   "  description          = \"\"",
   "  max_session_duration = 3600",
   "  path                 = \"/\"",
   "  assume_role_policy   = <<EOF",
   "\x7b",
   "  \"Statement\": [",
   "    \x7b",
   "      \"Action\": \"sts:AssumeRole\",",
   "      \"Effect\": \"Allow\",",
   "      \"Principal\": \x7b",
   "        \"Service\": \"medialive.amazonaws.com\"",
   "      \x7d",
   "    \x7d",
   "  ],",
   "  \"Version\": \"2012-10-17\"",
   "\x7d",
   "EOF",
   "\x7d",
   "",
   "resource \"aws_iam_role_policy_attachment\" \"example_mediaPackage\" \x7b",
   "  role       = aws_iam_role.example.name",
   "  policy_arn = \"arn:aws:iam::aws:policy/AWSElementalMediaPackageReadOnly\"",
   "\x7d",
   "",
   "resource \"aws_iam_role_policy_attachment\" \"example_mediaLive\" \x7b",
   "  role       = aws_iam_role.example.name",
   "  policy_arn = \"arn:aws:iam::aws:policy/AWSElementalMediaLiveFullAccess\"",
   "\x7d",
   "",
   "",
   "resource \"aws_media_package_channel\" \"example\" \x7b",
   "  channel_id = \"$\x7blocal.resource_prefix\x7d-bbb\"",
   "\x7d",
   "",
   "resource \"aws_medialive_input\" \"example\" \x7b",
   "  name = \"$\x7blocal.resource_prefix\x7d-bbb\"",
   "  type = \"MP4_FILE\"",
   "",
   "  sources \x7b",
   "    url            = \"http://commondatastorage.googleapis.com/gtv-videos-bucket/sample/BigBuckBunny.mp4\"",
   "    username       = \"\"",
   "    password_param = \"\"",
   "  \x7d",
   "\x7d",
   "",
   "resource \"aws_medialive_channel\" \"example\" \x7b",
   "  name          = \"$\x7blocal.resource_prefix\x7d-bbb\"",
   "  channel_class = \"SINGLE_PIPELINE\"",
   "  role_arn      = aws_iam_role.example.arn",
   "",
   "  destinations \x7b",
   "    id = \"mediapackage-output\"",
   "    media_package_settings \x7b",
   "      channel_id = aws_media_package_channel.example.id",
   "    \x7d",
   "  \x7d",
   "",
   "  input_specification \x7b",
   "    codec            = \"AVC\"",
   "    input_resolution = \"HD\"",
   "    maximum_bitrate  = \"MAX_20_MBPS\"",
   "  \x7d",
   "",
   "  input_attachments \x7b",
   "    input_id              = aws_medialive_input.example.id",
   "    input_attachment_name = \"BBB\"",
   "",
   "    input_settings \x7b",
   "      source_end_behavior = \"LOOP\"",
   "    \x7d",
   "  \x7d",
   "",
   "  encoder_settings \x7b",
   "",
   "    audio_descriptions \x7b",
   "      name                = \"example-audio\"",
   "      audio_selector_name = \"Default\"",
   "    \x7d",
   "",
   "    video_descriptions \x7b",
   "      name   = \"example-video\"",
   "      width  = 640",
   "      height = 360",
   "",
   "      codec_settings \x7b",
   "        h264_settings \x7b",
   "          framerate_control       = \"SPECIFIED\"",
   "          par_control             = \"SPECIFIED\"",
   "          framerate_numerator     = 50",
   "          framerate_denominator   = 1",
   "        \x7d",
   "      \x7d",
   "    \x7d",
   "",
   "    timecode_config \x7b",
   "      source = \"EMBEDDED\"",
   "    \x7d",
   "",
   "    output_groups \x7b",
   "      name = \"livestream\"",
   "",
   "      output_group_settings \x7b",
   "        media_package_group_settings \x7b",
   "          destination \x7b",
   "            destination_ref_id = \"mediapackage-output\"",
   "          \x7d",
   "        \x7d",
   "      \x7d",
   "",
   "      outputs \x7b",
   "        output_name             = \"output-name\"",
   "        video_description_name  = \"example-video\"",
   "        audio_description_names = [\"example-audio\"]",
   "",
   "        output_settings \x7b",
   "          media_package_output_settings \x7b\x7d",
   "        \x7d",
   "      \x7d",
   "    \x7d",
   "  \x7d",
   "\x7d",
   "    "]

/-- `testAccChannelConfig_mediaPackageOutputSetting(rName)`. -/
def testAccChannelConfig_mediaPackageOutputSetting (rName : String) : Option String :=
  fmt.Sprintf testAccChannelConfig_mediaPackageOutputSetting.format [.string rName]

/-- The text of the `i`-th item of the format of `testAccChannelConfig_update` (empty when
that item is a verb). -/
def testAccChannelConfig_update.part (i : Nat) : String :=
  match ((scanFormat testAccChannelConfig_update.format.toList .plain []).getD []).getD i
      .noVerb with
  | .text s => s
  | _ => ""

/-! ## The steps and checks of the tests -/

/-- A step of an acceptance test: the configuration it applies and the resource names its
checks pass to `testAccCheckChannelExists`. -/
structure TestStep where
  Config : Option String
  Check : List String
  deriving DecidableEq, Repr

/-- The steps of `TestAccMediaLiveChannel_noDriftOnUnchangedMediaPackageOutputSettings`. -/
def TestAccMediaLiveChannel_noDriftOnUnchangedMediaPackageOutputSettings (rName : String) :
    List TestStep :=
  let resourceName := "aws_medialive_channel.test"
  [⟨testAccChannelConfig_mediaPackageOutputSetting rName, [resourceName]⟩,
   ⟨testAccChannelConfig_basic rName, [resourceName]⟩]

/-- The header of the block that declares the resource `resourceName`, which has the form
`type.name`. -/
def blockHeader (resourceName : String) : String :=
  "resource \"" ++ ⟨resourceName.toList.takeWhile (· ≠ '.')⟩ ++ "\" \""
    ++ ⟨(resourceName.toList.dropWhile (· ≠ '.')).drop 1⟩ ++ "\""

/-- Does the configuration contain the header of the block of `resourceName`. -/
def declares (config resourceName : String) : Bool :=
  occursIn (blockHeader resourceName).toList config.toList

/-- The codec-settings checks of the first step of `TestAccMediaLiveChannel_VideoDescriptions_CodecSettings_h264Settings`: the attribute
path and the map of each `resource.TestCheckTypeSetElemNestedAttrs` under `codec_settings`. -/
def TestAccMediaLiveChannel_VideoDescriptions_CodecSettings_h264Settings.codecChecks : List (String × List (String × String)) :=
  [("encoder_settings.0.video_descriptions.0.codec_settings.0.h264_settings.*",
     [("adaptive_quantization", "LOW"),
      ("afd_signaling", "NONE"),
      ("bitrate", "5400000"),
      ("buf_fill_pct", "90"),
      ("buf_size", "10800000"),
      ("color_metadata", "IGNORE"),
      ("entropy_encoding", "CABAC"),
      ("filter_settings", ""),
      ("fixed_afd", ""),
      ("flicker_aq", "ENABLED"),
      ("force_field_pictures", "DISABLED"),
      ("framerate_control", "SPECIFIED"),
      ("framerate_denominator", "1"),
      ("framerate_numerator", "50"),
      ("gop_b_reference", "DISABLED"),
      ("gop_closed_cadence", "1"),
      ("gop_num_b_frames", "1"),
      ("gop_size", "1.92"),
      ("gop_size_units", "SECONDS"),
      ("level", "H264_LEVEL_AUTO"),
      ("look_ahead_rate_control", "HIGH"),
      ("max_bitrate", "0"),
      ("min_i_interval", "0"),
      ("num_ref_frames", "3"),
      ("par_control", "INITIALIZE_FROM_SOURCE"),
      ("par_denominator", "0"),
      ("par_numerator", "0"),
      ("profile", "HIGH"),
      ("quality_level", ""),
      ("qvbr_quality_level", "0"),
      ("rate_control_mode", "CBR"),
      ("scan_type", "PROGRESSIVE"),
      ("scene_change_detect", "DISABLED"),
      ("slices", "1"),
      ("spatial_aq", "0"),
      ("subgop_length", "FIXED"),
      ("syntax", "DEFAULT"),
      ("temporal_aq", "ENABLED"),
      ("timecode_insertion", "PIC_TIMING_SEI")])]

/-- The codec-settings checks of the first step of `TestAccMediaLiveChannel_VideoDescriptions_CodecSettings_h265Settings`: the attribute
path and the map of each `resource.TestCheckTypeSetElemNestedAttrs` under `codec_settings`. -/
def TestAccMediaLiveChannel_VideoDescriptions_CodecSettings_h265Settings.codecChecks : List (String × List (String × String)) :=
  [("encoder_settings.0.video_descriptions.0.codec_settings.0.h265_settings.*",
     [("adaptive_quantization", "LOW"),
      ("afd_signaling", "FIXED"),
      ("bitrate", "5400000"),
      ("buf_size", "20000000"),
      ("color_metadata", "IGNORE"),
      ("fixed_afd", "AFD_0000"),
      ("flicker_aq", "ENABLED"),
      ("framerate_denominator", "1"),
      ("framerate_numerator", "50"),
      ("gop_closed_cadence", "1"),
      ("gop_size", "1.92"),
      ("gop_size_units", "SECONDS"),
      ("level", "H265_LEVEL_AUTO"),
      ("look_ahead_rate_control", "HIGH"),
      ("min_i_interval", "6"),
      ("profile", "MAIN_10BIT"),
      ("rate_control_mode", "CBR"),
      ("scan_type", "PROGRESSIVE"),
      ("scene_change_detect", "ENABLED"),
      ("slices", "2"),
      ("tier", "HIGH")]),
   ("encoder_settings.0.video_descriptions.0.codec_settings.0.h265_settings.0.color_space_settings.0.hdr10_settings.*",
     [("max_cll", "16"),
      ("max_fall", "16")]),
   ("encoder_settings.0.video_descriptions.0.codec_settings.0.h265_settings.0.filter_settings.0.temporal_filter_settings.*",
     [("post_filter_sharpening", "AUTO"),
      ("strength", "STRENGTH_1")]),
   ("encoder_settings.0.video_descriptions.0.codec_settings.0.h265_settings.0.timecode_burnin_settings.*",
     [("timecode_burnin_font_size", "SMALL_16"),
      ("timecode_burnin_position", "BOTTOM_CENTER"),
      ("prefix", "terraform-test")])]

/-! ## Reading a configuration -/

/-- The lines of a text; `acc` holds the current line reversed. -/
def splitLines : List Char → List Char → List (List Char)
  | [], acc => [acc.reverse]
  | c :: cs, acc =>
    if c = '\n' then acc.reverse :: splitLines cs [] else splitLines cs (c :: acc)

/-- A line without the blanks at its start. -/
def trimLeft (l : List Char) : List Char := l.dropWhile (· = ' ')

/-- A line without the blanks at its start and end. -/
def trim (l : List Char) : List Char := (trimLeft (trimLeft l).reverse).reverse

/-- The parts of a dotted path. -/
def splitDots : List Char → List Char → List (List Char)
  | [], acc => [acc.reverse]
  | c :: cs, acc =>
    if c = '.' then acc.reverse :: splitDots cs [] else splitDots cs (c :: acc)

/-- The block a check path such as `a.0.h264_settings.*` addresses: its part before `.*`. -/
def pathBlock (path : String) : String :=
  ⟨((splitDots path.toList []).reverse.drop 1).headD []⟩

/-- The value a configuration writes as a literal: a string in double quotes without
interpolation, given without the quotes, or a number.  `none` for anything else. -/
def literalValue (v : List Char) : Option String :=
  match v with
  | [] => none
  | c :: cs =>
    if c = Char.ofNat 34 then
      if cs.getLast? = some (Char.ofNat 34) ∧ ¬ '$' ∈ cs ∧ ¬ Char.ofNat 34 ∈ cs.dropLast then
        some ⟨cs.dropLast⟩
      else none
    else if (c :: cs).all (fun d => d.isDigit || d = '.') then some ⟨c :: cs⟩
    else none

/-- The name and the literal value of a line `name = value`. -/
def literalAttribute (line : List Char) : Option (String × String) :=
  let l := trim line
  match trimLeft (l.dropWhile (· ≠ ' ')) with
  | '=' :: v => (literalValue (trimLeft v)).map fun value => (⟨l.takeWhile (· ≠ ' ')⟩, value)
  | _ => none

/-- The attributes set to a literal directly inside the first block called `block`.
`depth` is `none` before the block and otherwise the number of blocks open inside it. -/
def blockLiterals.scan (block : String) :
    List (List Char) → Option Nat → List (String × String)
  | [], _ => []
  | l :: ls, none =>
    if trim l = (block ++ " \x7b").toList then blockLiterals.scan block ls (some 0)
    else blockLiterals.scan block ls none
  | l :: ls, some depth =>
    if trim l = [Char.ofNat 125] then
      match depth with
      | 0 => []
      | d + 1 => blockLiterals.scan block ls (some d)
    else if (trim l).getLast? = some (Char.ofNat 123) then
      blockLiterals.scan block ls (some (depth + 1))
    else if depth = 0 then
      match literalAttribute l with
      | some a => a :: blockLiterals.scan block ls (some 0)
      | none => blockLiterals.scan block ls (some 0)
    else blockLiterals.scan block ls (some depth)

/-- The attributes that `config` sets to a literal directly inside its first block called
`block`, with their values. -/
def blockLiterals (block config : String) : List (String × String) :=
  blockLiterals.scan block (splitLines config.toList []) none

/-- An attribute that a configuration sets to a literal and that a check map lists: the
block, the name of the attribute, the configured value and the expected value. -/
structure Compared where
  block : String
  name : String
  configured : String
  expected : String
  deriving DecidableEq, Repr

/-- The attributes that `config` sets to a literal in the block a check addresses and that
the check's map lists as well, for every check. -/
def compared (config : String) : List (String × List (String × String)) → List Compared
  | [] => []
  | (path, expected) :: checks =>
    (blockLiterals (pathBlock path) config).filterMap (fun a =>
      (expected.lookup a.1).map fun e => ⟨pathBlock path, a.1, a.2, e⟩)
      ++ compared config checks

/-- The compared attributes whose expected value is not the configured one. -/
def mismatches (config : String) (checks : List (String × List (String × String))) :
    List Compared :=
  (compared config checks).filter fun c => c.configured ≠ c.expected

/-! ## Each sweep function is the generic procedure at its kind -/

theorem sweepAssessments_run_eq (w : World AssessmentMetadataItem) (region : String)
    (ps : List (PageResult AssessmentMetadataItem)) (acc : List Sweepable) (calls : List Call) :
    sweepAssessments.run w region ps acc calls
      = sweepGeneric.run .Assessments w region ps acc calls := by
  induction ps generalizing acc calls with
  | nil => simp [sweepAssessments.run, sweepGeneric.run, SweepKind.label]
  | cons p ps ih =>
    cases p with
    | error e => simp [sweepAssessments.run, sweepGeneric.run, SweepKind.label, SweepKind.input]
    | ok items =>
      simp only [sweepAssessments.run, sweepGeneric.run, ih]
      rfl

theorem sweepAssessmentDelegations_run_eq (w : World DelegationMetadata) (region : String)
    (ps : List (PageResult DelegationMetadata)) (acc : List Sweepable) (calls : List Call) :
    sweepAssessmentDelegations.run w region ps acc calls
      = sweepGeneric.run .AssessmentDelegations w region ps acc calls := by
  induction ps generalizing acc calls with
  | nil => simp [sweepAssessmentDelegations.run, sweepGeneric.run, SweepKind.label]
  | cons p ps ih =>
    cases p with
    | error e => simp [sweepAssessmentDelegations.run, sweepGeneric.run, SweepKind.label, SweepKind.input]
    | ok items =>
      simp only [sweepAssessmentDelegations.run, sweepGeneric.run, ih]
      rfl

theorem sweepAssessmentReports_run_eq (w : World AssessmentReportMetadata) (region : String)
    (ps : List (PageResult AssessmentReportMetadata)) (acc : List Sweepable) (calls : List Call) :
    sweepAssessmentReports.run w region ps acc calls
      = sweepGeneric.run .AssessmentReports w region ps acc calls := by
  induction ps generalizing acc calls with
  | nil => simp [sweepAssessmentReports.run, sweepGeneric.run, SweepKind.label]
  | cons p ps ih =>
    cases p with
    | error e => simp [sweepAssessmentReports.run, sweepGeneric.run, SweepKind.label, SweepKind.input]
    | ok items =>
      simp only [sweepAssessmentReports.run, sweepGeneric.run, ih]
      rfl

theorem sweepControls_run_eq (w : World ControlMetadata) (region : String)
    (ps : List (PageResult ControlMetadata)) (acc : List Sweepable) (calls : List Call) :
    sweepControls.run w region ps acc calls
      = sweepGeneric.run .Controls w region ps acc calls := by
  induction ps generalizing acc calls with
  | nil => simp [sweepControls.run, sweepGeneric.run, SweepKind.label]
  | cons p ps ih =>
    cases p with
    | error e => simp [sweepControls.run, sweepGeneric.run, SweepKind.label, SweepKind.input]
    | ok items =>
      simp only [sweepControls.run, sweepGeneric.run, ih]
      rfl

theorem sweepFrameworks_run_eq (w : World AssessmentFrameworkMetadata) (region : String)
    (ps : List (PageResult AssessmentFrameworkMetadata)) (acc : List Sweepable) (calls : List Call) :
    sweepFrameworks.run w region ps acc calls
      = sweepGeneric.run .Frameworks w region ps acc calls := by
  induction ps generalizing acc calls with
  | nil => simp [sweepFrameworks.run, sweepGeneric.run, SweepKind.label]
  | cons p ps ih =>
    cases p with
    | error e => simp [sweepFrameworks.run, sweepGeneric.run, SweepKind.label, SweepKind.input]
    | ok items =>
      simp only [sweepFrameworks.run, sweepGeneric.run, ih]
      rfl

theorem sweepFrameworkShares_run_eq (w : World AssessmentFrameworkShareRequest) (region : String)
    (ps : List (PageResult AssessmentFrameworkShareRequest)) (acc : List Sweepable) (calls : List Call) :
    sweepFrameworkShares.run w region ps acc calls
      = sweepGeneric.run .FrameworkShares w region ps acc calls := by
  induction ps generalizing acc calls with
  | nil => simp [sweepFrameworkShares.run, sweepGeneric.run, SweepKind.label]
  | cons p ps ih =>
    cases p with
    | error e => simp [sweepFrameworkShares.run, sweepGeneric.run, SweepKind.label, SweepKind.input]
    | ok items =>
      simp only [sweepFrameworkShares.run, sweepGeneric.run, ih]
      rfl

/-- Every sweep function is the generic procedure at its kind. -/
theorem SweepKind.sweep_eq_generic (k : SweepKind) (w : World k.Item) (region : String) :
    k.sweep w region = sweepGeneric k w region := by
  cases k
  · exact sweepAssessments_run_eq w region w.pages [] []
  · exact sweepAssessmentDelegations_run_eq w region w.pages [] []
  · exact sweepAssessmentReports_run_eq w region w.pages [] []
  · exact sweepControls_run_eq w region w.pages [] []
  · exact sweepFrameworks_run_eq w region w.pages [] []
  · exact sweepFrameworkShares_run_eq w region w.pages [] []

/-! ## The generic procedure, step by step -/

/-- Pages that are fetched without error add their descriptors and one list call each. -/
theorem sweepGeneric.run_ok_pages (k : SweepKind) (w : World k.Item) (region : String)
    (pre : List (List k.Item)) (rest : List (PageResult k.Item))
    (acc : List Sweepable) (calls : List Call) :
    sweepGeneric.run k w region (pre.map Except.ok ++ rest) acc calls
      = sweepGeneric.run k w region rest (acc ++ pre.flatten.map (k.descriptor w.client))
          (calls ++ List.replicate pre.length (Call.NextPage k.input)) := by
  induction pre generalizing acc calls with
  | nil => simp
  | cons p pre ih =>
    simp only [List.map_cons, List.cons_append, sweepGeneric.run, PageResult.err,
      sweep.SkipSweepError, isCompleteSetupError, Bool.or_self, Bool.false_eq_true, if_false]
    have hih := ih (acc ++ List.map (k.descriptor w.client) p) (calls ++ [Call.NextPage k.input])
    simp only [List.append_eq] at hih ⊢
    rw [hih]
    simp [List.replicate_succ, List.append_assoc]

/-- A failing `NextPage` call ends the procedure at once. -/
theorem sweepGeneric.run_error (k : SweepKind) (w : World k.Item) (region : String)
    (e : GoError) (rest : List (PageResult k.Item)) (acc : List Sweepable) (calls : List Call) :
    sweepGeneric.run k w region (Except.error e :: rest) acc calls
      = ⟨if w.skipSignal e || e.asAccessDenied then none
          else some (.wrapError ("error retrieving AuditManager " ++ k.label ++ ": ") e),
         calls ++ [Call.NextPage k.input]⟩ := by
  simp only [sweepGeneric.run, PageResult.err, sweep.SkipSweepError, isCompleteSetupError,
    fmt.Errorf]
  by_cases h1 : w.skipSignal e = true <;> by_cases h2 : e.asAccessDenied = true <;> simp [h1, h2]

/-- The outcome when the `NextPage` call after `pre.length` good pages fails. -/
theorem sweepGeneric_listing_error (k : SweepKind) (w : World k.Item) (region : String)
    (pre : List (List k.Item)) (e : GoError) (rest : List (PageResult k.Item))
    (hpages : w.pages = pre.map Except.ok ++ Except.error e :: rest) :
    sweepGeneric k w region
      = ⟨if w.skipSignal e || e.asAccessDenied then none
          else some (.wrapError ("error retrieving AuditManager " ++ k.label ++ ": ") e),
         List.replicate (pre.length + 1) (Call.NextPage k.input)⟩ := by
  rw [sweepGeneric, hpages, sweepGeneric.run_ok_pages, sweepGeneric.run_error]
  simp [List.replicate_succ']

/-- The outcome when every `NextPage` call succeeds. -/
theorem sweepGeneric_listing_ok (k : SweepKind) (w : World k.Item) (region : String)
    (ps : List (List k.Item)) (hpages : w.pages = ps.map Except.ok) :
    sweepGeneric k w region
      = ⟨if sweep.SkipSweepError w.skipSignal w.clientErr then none
          else match w.SweepOrchestratorWithContext (ps.flatten.map (k.descriptor w.client)) with
            | some err =>
              some (.multi [.wrapError
                ("error sweeping AuditManager " ++ k.label ++ " for " ++ region ++ ": ") err])
            | none => none,
         List.replicate ps.length (Call.NextPage k.input)
           ++ [Call.SweepOrchestratorWithContext (ps.flatten.map (k.descriptor w.client))]⟩ := by
  have h := sweepGeneric.run_ok_pages k w region ps [] [] []
  rw [List.append_nil] at h
  rw [sweepGeneric, hpages, h]
  simp only [sweepGeneric.run, List.nil_append]
  by_cases hs : sweep.SkipSweepError w.skipSignal w.clientErr = true
  · simp [hs]
  · cases horch : w.SweepOrchestratorWithContext (ps.flatten.map (k.descriptor w.client)) with
    | none => simp [hs, multierror.ErrorOrNil]
    | some err =>
      cases err <;> simp [hs, multierror.Append, multierror.ErrorOrNil, fmt.Errorf]

theorem Outcome.orchestrated_replicate_nextPage (r : Option GoError) (n : Nat) (i : ListInput) :
    (Outcome.mk r (List.replicate n (Call.NextPage i))).orchestrated = [] := by
  induction n with
  | zero => rfl
  | succ n ih =>
    simp only [Outcome.orchestrated, List.replicate_succ, List.filterMap_cons] at ih ⊢
    exact ih

theorem Outcome.orchestrated_replicate_then (r : Option GoError) (n : Nat) (i : ListInput)
    (b : List Sweepable) :
    (Outcome.mk r (List.replicate n (Call.NextPage i)
      ++ [Call.SweepOrchestratorWithContext b])).orchestrated = [b] := by
  have h := Outcome.orchestrated_replicate_nextPage r n i
  simp only [Outcome.orchestrated] at h ⊢
  rw [List.filterMap_append, h]
  rfl

/-! ## Facts about error values -/

theorem GoError.Is_self (e : GoError) : e.Is e = true := by
  cases e <;> simp [GoError.Is]

theorem GoError.Is_wrapError (f : String) (e : GoError) :
    (GoError.wrapError f e).Is e = true := by
  simp [GoError.Is, GoError.Is_self]

theorem GoError.Error_wrapError (f : String) (e : GoError) :
    (GoError.wrapError f e).Error = f ++ e.Error := by
  simp [GoError.Error]

theorem multierror.ErrorOrNil_of_ne_nil (es : List GoError) (h : es ≠ []) :
    multierror.ErrorOrNil (some es) = some (.multi es) := by
  cases es with
  | nil => exact absurd rfl h
  | cons e es => rfl

/-- The entries of the spec's orchestrator correspond one to one, in order, to the
descriptors whose delete fails. -/
theorem deleteFailures_pairing (delete : Sweepable → Option GoError) (batch : List Sweepable) :
    List.Forall₂ (fun d entry => ∃ err, delete d = some err ∧ entry = deleteFailure d err)
      (failedDeletes delete batch)
      (batch.filterMap fun d => (delete d).map (deleteFailure d)) := by
  induction batch with
  | nil => exact List.Forall₂.nil
  | cons d batch ih =>
    cases hd : delete d with
    | none =>
      simpa [failedDeletes, List.filter_cons, List.filterMap_cons, hd] using ih
    | some err =>
      have : List.Forall₂ (fun d entry => ∃ err, delete d = some err ∧ entry = deleteFailure d err)
          (d :: failedDeletes delete batch)
          (deleteFailure d err :: batch.filterMap fun d => (delete d).map (deleteFailure d)) :=
        List.Forall₂.cons ⟨err, hd, rfl⟩ ih
      simpa [failedDeletes, List.filter_cons, List.filterMap_cons, hd] using this

/-- The failures collected over the descriptors whose delete fails are the failures
collected over the whole batch. -/
theorem deleteFailures_of_failed (delete : Sweepable → Option GoError)
    (batch : List Sweepable) :
    ((failedDeletes delete batch).filterMap
        fun d => (delete d).map fun err => GoError.wrapError d.context err)
      = batch.filterMap fun d => (delete d).map (deleteFailure d) := by
  induction batch with
  | nil => rfl
  | cons d batch ih =>
    cases hd : delete d with
    | none =>
      simpa [failedDeletes, List.filter_cons, List.filterMap_cons, hd] using ih
    | some err =>
      simpa [failedDeletes, List.filter_cons, List.filterMap_cons, hd, deleteFailure] using ih

/-! ## Listing errors -/

/-- C1: for each of the six sweep functions and every region, when the `NextPage` call
that follows any number of successfully fetched pages returns an error whose chain
contains an `AccessDeniedException`, `isCompleteSetupError` accepts that error, the
function returns nil, and the orchestrator is never invoked. -/
theorem sweep_nil_on_service_not_enabled (k : SweepKind) (w : World k.Item) (region : String)
    (pre : List (List k.Item)) (e : GoError) (rest : List (PageResult k.Item))
    (hpages : w.pages = pre.map Except.ok ++ Except.error e :: rest)
    (hade : e.asAccessDenied = true) :
    isCompleteSetupError (some e) = true ∧ (k.sweep w region).ret = none
      ∧ (k.sweep w region).orchestrated = [] := by
  rw [SweepKind.sweep_eq_generic, sweepGeneric_listing_error k w region pre e rest hpages]
  refine ⟨by simp [isCompleteSetupError, hade], by simp [hade], ?_⟩
  exact Outcome.orchestrated_replicate_nextPage _ _ _

/-- A frameworks sweep whose second page fails with the setup error, after one listed item. -/
theorem sweep_nil_on_service_not_enabled_witness :
    setupError.asAccessDenied = true
      ∧ isCompleteSetupError (some setupError) = true
      ∧ (SweepKind.Frameworks.sweep
          (worldOf [.ok [⟨some "f1"⟩], .error setupError, .ok [⟨some "f2"⟩]] deleteNone)
          "us-west-2").ret = none
      ∧ (SweepKind.Frameworks.sweep
          (worldOf [.ok [⟨some "f1"⟩], .error setupError, .ok [⟨some "f2"⟩]] deleteNone)
          "us-west-2").orchestrated = [] :=
  ⟨by decide,
    sweep_nil_on_service_not_enabled .Frameworks
      (worldOf [.ok [⟨some "f1"⟩], .error setupError, .ok [⟨some "f2"⟩]] deleteNone)
      "us-west-2" [[⟨some "f1"⟩]] setupError [.ok [⟨some "f2"⟩]] rfl (by decide)⟩

/-- C2: for each of the six sweep functions and every region, when the `NextPage` call
that follows any number of successfully fetched pages (none, or some) returns an error
that `sweep.SkipSweepError` classifies as a skip signal, the function returns nil and
the orchestrator is not invoked: nothing is deleted, also not what earlier pages
listed. -/
theorem sweep_nil_on_skip_signal (k : SweepKind) (w : World k.Item) (region : String)
    (pre : List (List k.Item)) (e : GoError) (rest : List (PageResult k.Item))
    (hpages : w.pages = pre.map Except.ok ++ Except.error e :: rest)
    (hskip : sweep.SkipSweepError w.skipSignal (some e) = true) :
    (k.sweep w region).ret = none ∧ (k.sweep w region).orchestrated = [] := by
  rw [SweepKind.sweep_eq_generic, sweepGeneric_listing_error k w region pre e rest hpages]
  have hs : w.skipSignal e = true := hskip
  exact ⟨by simp [hs], Outcome.orchestrated_replicate_nextPage _ _ _⟩

/-- A controls sweep whose second page fails with a skip signal, after two listed items. -/
theorem sweep_nil_on_skip_signal_witness :
    sweep.SkipSweepError
        (worldSkipping [] deleteNone : World ControlMetadata).skipSignal
        (some (.GenericAPIError "UnsupportedOperation" "not supported in this partition")) = true
      ∧ (SweepKind.Controls.sweep
          (worldSkipping [.ok [⟨some "c1"⟩, ⟨some "c2"⟩],
            .error (.GenericAPIError "UnsupportedOperation" "not supported in this partition")]
            deleteNone)
          "us-gov-west-1").ret = none
      ∧ (SweepKind.Controls.sweep
          (worldSkipping [.ok [⟨some "c1"⟩, ⟨some "c2"⟩],
            .error (.GenericAPIError "UnsupportedOperation" "not supported in this partition")]
            deleteNone)
          "us-gov-west-1").orchestrated = [] :=
  ⟨by decide,
    sweep_nil_on_skip_signal .Controls
      (worldSkipping [.ok [⟨some "c1"⟩, ⟨some "c2"⟩],
        .error (.GenericAPIError "UnsupportedOperation" "not supported in this partition")]
        deleteNone)
      "us-gov-west-1" [[⟨some "c1"⟩, ⟨some "c2"⟩]]
      (.GenericAPIError "UnsupportedOperation" "not supported in this partition") [] rfl
      (by decide)⟩

/-- C3: for each of the six sweep functions, when the `NextPage` call that follows any
number of successfully fetched pages returns an error `e` that is neither a skip signal
nor has an `AccessDeniedException` in its chain, the function returns at once (that call
is its last) a non-nil error that wraps `e`: `errors.Is(result, e)` holds, unwrapping
gives `e`, and its message is "error retrieving AuditManager <Kind>: " followed by the
message of `e`; the orchestrator is not invoked. -/
theorem sweep_propagates_listing_error (k : SweepKind) (w : World k.Item) (region : String)
    (pre : List (List k.Item)) (e : GoError) (rest : List (PageResult k.Item))
    (hpages : w.pages = pre.map Except.ok ++ Except.error e :: rest)
    (hskip : sweep.SkipSweepError w.skipSignal (some e) = false)
    (hade : isCompleteSetupError (some e) = false) :
    ∃ result, (k.sweep w region).ret = some result
      ∧ result.Is e = true
      ∧ result.Unwrap = some e
      ∧ result.Error = "error retrieving AuditManager " ++ k.label ++ ": " ++ e.Error
      ∧ (k.sweep w region).orchestrated = []
      ∧ (k.sweep w region).calls = List.replicate (pre.length + 1) (Call.NextPage k.input) := by
  rw [SweepKind.sweep_eq_generic, sweepGeneric_listing_error k w region pre e rest hpages]
  have hs : w.skipSignal e = false := hskip
  have ha : e.asAccessDenied = false := by
    cases h : e.asAccessDenied with
    | false => rfl
    | true => simp [isCompleteSetupError, h] at hade
  refine ⟨.wrapError ("error retrieving AuditManager " ++ k.label ++ ": ") e, by simp [hs, ha],
    GoError.Is_wrapError _ _, rfl, GoError.Error_wrapError _ _, ?_, rfl⟩
  exact Outcome.orchestrated_replicate_nextPage _ _ _

/-- A framework shares sweep whose second page is throttled. -/
theorem sweep_propagates_listing_error_witness :
    ∃ result,
      (SweepKind.FrameworkShares.sweep
        (worldSkipping [.ok [⟨some "s1"⟩],
          .error (.GenericAPIError "ThrottlingException" "Rate exceeded"), .ok [⟨some "s2"⟩]]
          deleteAll)
        "us-west-2").ret = some result
      ∧ result.Is (.GenericAPIError "ThrottlingException" "Rate exceeded") = true
      ∧ result.Unwrap = some (.GenericAPIError "ThrottlingException" "Rate exceeded")
      ∧ result.Error = "error retrieving AuditManager " ++ SweepKind.FrameworkShares.label ++ ": "
          ++ (GoError.GenericAPIError "ThrottlingException" "Rate exceeded").Error
      ∧ (SweepKind.FrameworkShares.sweep
          (worldSkipping [.ok [⟨some "s1"⟩],
            .error (.GenericAPIError "ThrottlingException" "Rate exceeded"), .ok [⟨some "s2"⟩]]
            deleteAll)
          "us-west-2").orchestrated = []
      ∧ (SweepKind.FrameworkShares.sweep
          (worldSkipping [.ok [⟨some "s1"⟩],
            .error (.GenericAPIError "ThrottlingException" "Rate exceeded"), .ok [⟨some "s2"⟩]]
            deleteAll)
          "us-west-2").calls
          = List.replicate ([[(⟨some "s1"⟩ : AssessmentFrameworkShareRequest)]].length + 1)
              (Call.NextPage SweepKind.FrameworkShares.input) :=
  sweep_propagates_listing_error .FrameworkShares
    (worldSkipping [.ok [⟨some "s1"⟩],
      .error (.GenericAPIError "ThrottlingException" "Rate exceeded"), .ok [⟨some "s2"⟩]]
      deleteAll)
    "us-west-2" [[⟨some "s1"⟩]] (.GenericAPIError "ThrottlingException" "Rate exceeded")
    [.ok [⟨some "s2"⟩]] rfl (by decide) (by decide)

/-! ## Successful listing -/

/-- C4: for each of the six sweep functions, when every `NextPage` call succeeds and the
orchestrator returns nil on the batch of descriptors built from the listed items (every
delete succeeded), the function returns nil. -/
theorem sweep_nil_when_deletes_succeed (k : SweepKind) (w : World k.Item) (region : String)
    (ps : List (List k.Item)) (hpages : w.pages = ps.map Except.ok)
    (horch : w.SweepOrchestratorWithContext (ps.flatten.map (k.descriptor w.client)) = none) :
    (k.sweep w region).ret = none := by
  rw [SweepKind.sweep_eq_generic, sweepGeneric_listing_ok k w region ps hpages, horch]
  simp

/-- A delegations sweep over two pages whose deletes all succeed. -/
theorem sweep_nil_when_deletes_succeed_witness :
    (worldOf [.ok [⟨some "d1", some "a1"⟩], .ok [⟨some "d2", some "a1"⟩]]
        deleteAll : World DelegationMetadata).SweepOrchestratorWithContext
        ([[(⟨some "d1", some "a1"⟩ : DelegationMetadata)], [⟨some "d2", some "a1"⟩]].flatten.map
          (SweepKind.AssessmentDelegations.descriptor (some ⟨"us-west-2"⟩))) = none
      ∧ (SweepKind.AssessmentDelegations.sweep
          (worldOf [.ok [⟨some "d1", some "a1"⟩], .ok [⟨some "d2", some "a1"⟩]] deleteAll)
          "us-west-2").ret = none :=
  ⟨by decide,
    sweep_nil_when_deletes_succeed .AssessmentDelegations
      (worldOf [.ok [⟨some "d1", some "a1"⟩], .ok [⟨some "d2", some "a1"⟩]] deleteAll)
      "us-west-2" [[⟨some "d1", some "a1"⟩], [⟨some "d2", some "a1"⟩]] rfl (by decide)⟩

/-- C5, as the code has it: for each of the six sweep functions, when client acquisition
returned no error, every `NextPage` call succeeds and at least one delete of the batch
fails, the function returns a non-nil aggregated error with exactly one entry.  That
entry has the message prefix "error sweeping AuditManager <Kind> for <region>: " and
wraps the aggregated error of the orchestrator, which has as many entries as there are
descriptors whose delete failed: up to their order, its entries are exactly the failures
of those descriptors, one for each, every one carrying the resource type and identifying
attributes of its descriptor. -/
theorem sweep_wraps_delete_failures (k : SweepKind) (w : World k.Item) (region : String)
    (ps : List (List k.Item)) (delete : Sweepable → Option GoError)
    (hpages : w.pages = ps.map Except.ok)
    (hclient : w.clientErr = none)
    (horch : w.SweepOrchestratorWithContext = sweep.SweepOrchestratorWithContext delete)
    (hfail : failedDeletes delete (ps.flatten.map (k.descriptor w.client)) ≠ []) :
    ∃ entries,
      (k.sweep w region).ret
          = some (.multi [.wrapError
              ("error sweeping AuditManager " ++ k.label ++ " for " ++ region ++ ": ")
              (.multi entries)])
        ∧ aggregatedEntries (k.sweep w region).ret
          = some [.wrapError
              ("error sweeping AuditManager " ++ k.label ++ " for " ++ region ++ ": ")
              (.multi entries)]
        ∧ entries.length
          = (failedDeletes delete (ps.flatten.map (k.descriptor w.client))).length
        ∧ entries.Perm
            ((failedDeletes delete (ps.flatten.map (k.descriptor w.client))).filterMap
              fun d => (delete d).map fun err => .wrapError d.context err) := by
  have hpair := deleteFailures_pairing delete (ps.flatten.map (k.descriptor w.client))
  have hne : ((ps.flatten.map (k.descriptor w.client)).filterMap
      fun d => (delete d).map (deleteFailure d)) ≠ [] := by
    intro h
    rw [h] at hpair
    exact hfail (List.forall₂_nil_right_iff.mp hpair)
  have hret : (k.sweep w region).ret
      = some (.multi [.wrapError
          ("error sweeping AuditManager " ++ k.label ++ " for " ++ region ++ ": ")
          (.multi ((ps.flatten.map (k.descriptor w.client)).filterMap
            fun d => (delete d).map (deleteFailure d)))]) := by
    rw [SweepKind.sweep_eq_generic, sweepGeneric_listing_ok k w region ps hpages, hclient, horch]
    simp only [sweep.SweepOrchestratorWithContext, sweep.SkipSweepError]
    rw [multierror.ErrorOrNil_of_ne_nil _ hne]
    simp
  refine ⟨_, hret, ?_, hpair.length_eq.symm, ?_⟩
  · rw [hret]
    rfl
  · exact List.Perm.of_eq
      (deleteFailures_of_failed delete (ps.flatten.map (k.descriptor w.client))).symm

/-- An assessments sweep over one page of two items whose deletes both fail. -/
theorem sweep_wraps_delete_failures_witness :
    failedDeletes deleteNone
        ([[(⟨some "a1"⟩ : AssessmentMetadataItem), ⟨some "a2"⟩]].flatten.map
          (SweepKind.Assessments.descriptor (some ⟨"us-west-2"⟩))) ≠ []
      ∧ ∃ entries,
        (SweepKind.Assessments.sweep (worldOf [.ok [⟨some "a1"⟩, ⟨some "a2"⟩]] deleteNone)
            "us-west-2").ret
          = some (.multi [.wrapError
              ("error sweeping AuditManager " ++ SweepKind.Assessments.label ++ " for "
                ++ "us-west-2" ++ ": ")
              (.multi entries)])
        ∧ aggregatedEntries
            (SweepKind.Assessments.sweep (worldOf [.ok [⟨some "a1"⟩, ⟨some "a2"⟩]] deleteNone)
              "us-west-2").ret
          = some [.wrapError
              ("error sweeping AuditManager " ++ SweepKind.Assessments.label ++ " for "
                ++ "us-west-2" ++ ": ")
              (.multi entries)]
        ∧ entries.length
          = (failedDeletes deleteNone
              ([[(⟨some "a1"⟩ : AssessmentMetadataItem), ⟨some "a2"⟩]].flatten.map
                (SweepKind.Assessments.descriptor (some ⟨"us-west-2"⟩)))).length
        ∧ entries.Perm
            ((failedDeletes deleteNone
              ([[(⟨some "a1"⟩ : AssessmentMetadataItem), ⟨some "a2"⟩]].flatten.map
                (SweepKind.Assessments.descriptor (some ⟨"us-west-2"⟩)))).filterMap
              fun d => (deleteNone d).map fun err => .wrapError d.context err) :=
  ⟨by decide,
    sweep_wraps_delete_failures .Assessments
      (worldOf [.ok [⟨some "a1"⟩, ⟨some "a2"⟩]] deleteNone) "us-west-2"
      [[⟨some "a1"⟩, ⟨some "a2"⟩]] deleteNone rfl rfl rfl (by decide)⟩

/-- C5 as stated fails: with two listed assessments whose deletes both fail, the
aggregated error `sweepAssessments` returns has one entry, not two. -/
theorem sweep_entries_not_one_per_failure :
    (failedDeletes deleteNone
        ([(⟨some "a1"⟩ : AssessmentMetadataItem), ⟨some "a2"⟩].map
          (SweepKind.Assessments.descriptor (some ⟨"us-west-2"⟩)))).length = 2
      ∧ (aggregatedEntries
          (sweepAssessments (worldOf [.ok [⟨some "a1"⟩, ⟨some "a2"⟩]] deleteNone)
            "us-west-2").ret).map List.length = some 1
      ∧ (aggregatedEntries
          (sweepAssessments (worldOf [.ok [⟨some "a1"⟩, ⟨some "a2"⟩]] deleteNone)
            "us-west-2").ret).map List.length ≠ some 2 := by
  decide

/-! ## The batch handed to the orchestrator -/

/-- The batch a sweep function hands over when every `NextPage` call succeeds. -/
theorem SweepKind.orchestrated_of_listing_ok (k : SweepKind) (w : World k.Item)
    (region : String) (ps : List (List k.Item)) (hpages : w.pages = ps.map Except.ok) :
    (k.sweep w region).orchestrated = [ps.flatten.map (k.descriptor w.client)] := by
  rw [SweepKind.sweep_eq_generic, sweepGeneric_listing_ok k w region ps hpages]
  exact Outcome.orchestrated_replicate_then _ _ _ _

/-- C6: for each of the six sweep functions, when every `NextPage` call succeeds, the
orchestrator is handed one batch, which holds the descriptor of every listed summary,
pages in fetch order and items in in-page order: its length is the total number of
listed items and its i-th descriptor is built from the i-th listed item. -/
theorem sweep_batch_follows_listing (k : SweepKind) (w : World k.Item) (region : String)
    (ps : List (List k.Item)) (hpages : w.pages = ps.map Except.ok) :
    ∃ batch, (k.sweep w region).orchestrated = [batch]
      ∧ batch = ps.flatten.map (k.descriptor w.client)
      ∧ batch.length = (ps.map List.length).sum
      ∧ ∀ i : Nat, batch[i]? = (ps.flatten[i]?).map (k.descriptor w.client) := by
  refine ⟨_, SweepKind.orchestrated_of_listing_ok k w region ps hpages, rfl, ?_, ?_⟩
  · rw [List.length_map, List.length_flatten]
  · intro i
    rw [List.getElem?_map]

/-- A reports sweep over three pages, the second of them empty. -/
theorem sweep_batch_follows_listing_witness :
    ∃ batch,
      (SweepKind.AssessmentReports.sweep
        (worldOf [.ok [⟨some "r1", some "a1"⟩, ⟨some "r2", some "a1"⟩], .ok [],
          .ok [⟨some "r3", some "a2"⟩]] deleteNone)
        "us-west-2").orchestrated = [batch]
      ∧ batch = [[(⟨some "r1", some "a1"⟩ : AssessmentReportMetadata), ⟨some "r2", some "a1"⟩],
          [], [⟨some "r3", some "a2"⟩]].flatten.map
            (SweepKind.AssessmentReports.descriptor (some ⟨"us-west-2"⟩))
      ∧ batch.length = ([[(⟨some "r1", some "a1"⟩ : AssessmentReportMetadata),
          ⟨some "r2", some "a1"⟩], [], [⟨some "r3", some "a2"⟩]].map List.length).sum
      ∧ ∀ i : Nat, batch[i]? = ([[(⟨some "r1", some "a1"⟩ : AssessmentReportMetadata),
          ⟨some "r2", some "a1"⟩], [], [⟨some "r3", some "a2"⟩]].flatten[i]?).map
            (SweepKind.AssessmentReports.descriptor (some ⟨"us-west-2"⟩)) :=
  sweep_batch_follows_listing .AssessmentReports
    (worldOf [.ok [⟨some "r1", some "a1"⟩, ⟨some "r2", some "a1"⟩], .ok [],
      .ok [⟨some "r3", some "a2"⟩]] deleteNone)
    "us-west-2" [[⟨some "r1", some "a1"⟩, ⟨some "r2", some "a1"⟩], [], [⟨some "r3", some "a2"⟩]]
    rfl

/-- C7: when every `NextPage` call succeeds, the batch that `sweepAssessments`,
`sweepControls`, `sweepFrameworks` and `sweepFrameworkShares` hand to the orchestrator
holds, for every listed item in order, the descriptor that pairs the constructor of the
same resource type (`newResourceAssessment`, `newResourceControl`,
`newResourceFramework`, `newResourceFrameworkShare`) and the acquired client with
exactly one attribute, named "id", whose value is `aws.ToString` of the item's `Id`. -/
theorem single_id_descriptors (region : String)
    (wa : World AssessmentMetadataItem) (pa : List (List AssessmentMetadataItem))
    (wc : World ControlMetadata) (pc : List (List ControlMetadata))
    (wf : World AssessmentFrameworkMetadata) (pf : List (List AssessmentFrameworkMetadata))
    (ws : World AssessmentFrameworkShareRequest)
    (pshares : List (List AssessmentFrameworkShareRequest))
    (ha : wa.pages = pa.map Except.ok) (hc : wc.pages = pc.map Except.ok)
    (hf : wf.pages = pf.map Except.ok) (hs : ws.pages = pshares.map Except.ok) :
    (sweepAssessments wa region).orchestrated
        = [pa.flatten.map fun assessment =>
            ⟨.newResourceAssessment, wa.client, [⟨"id", aws.ToString assessment.Id⟩]⟩]
      ∧ (sweepControls wc region).orchestrated
        = [pc.flatten.map fun control =>
            ⟨.newResourceControl, wc.client, [⟨"id", aws.ToString control.Id⟩]⟩]
      ∧ (sweepFrameworks wf region).orchestrated
        = [pf.flatten.map fun f =>
            ⟨.newResourceFramework, wf.client, [⟨"id", aws.ToString f.Id⟩]⟩]
      ∧ (sweepFrameworkShares ws region).orchestrated
        = [pshares.flatten.map fun share =>
            ⟨.newResourceFrameworkShare, ws.client, [⟨"id", aws.ToString share.Id⟩]⟩] :=
  ⟨SweepKind.orchestrated_of_listing_ok .Assessments wa region pa ha,
   SweepKind.orchestrated_of_listing_ok .Controls wc region pc hc,
   SweepKind.orchestrated_of_listing_ok .Frameworks wf region pf hf,
   SweepKind.orchestrated_of_listing_ok .FrameworkShares ws region pshares hs⟩

/-- Four sweeps with one or two pages each, one item with a nil `Id`. -/
theorem single_id_descriptors_witness :
    (sweepAssessments (worldOf [.ok [⟨some "a1"⟩], .ok [⟨none⟩]] deleteAll)
        "us-west-2").orchestrated
        = [[[(⟨some "a1"⟩ : AssessmentMetadataItem)], [⟨none⟩]].flatten.map fun assessment =>
            ⟨.newResourceAssessment, some ⟨"us-west-2"⟩, [⟨"id", aws.ToString assessment.Id⟩]⟩]
      ∧ (sweepControls (worldOf [.ok [⟨some "c1"⟩, ⟨some "c2"⟩]] deleteAll)
        "us-west-2").orchestrated
        = [[[(⟨some "c1"⟩ : ControlMetadata), ⟨some "c2"⟩]].flatten.map fun control =>
            ⟨.newResourceControl, some ⟨"us-west-2"⟩, [⟨"id", aws.ToString control.Id⟩]⟩]
      ∧ (sweepFrameworks (worldOf [.ok [⟨some "f1"⟩]] deleteNone) "us-west-2").orchestrated
        = [[[(⟨some "f1"⟩ : AssessmentFrameworkMetadata)]].flatten.map fun f =>
            ⟨.newResourceFramework, some ⟨"us-west-2"⟩, [⟨"id", aws.ToString f.Id⟩]⟩]
      ∧ (sweepFrameworkShares (worldOf [.ok [⟨some "s1"⟩]] deleteAll) "us-west-2").orchestrated
        = [[[(⟨some "s1"⟩ : AssessmentFrameworkShareRequest)]].flatten.map fun share =>
            ⟨.newResourceFrameworkShare, some ⟨"us-west-2"⟩, [⟨"id", aws.ToString share.Id⟩]⟩] :=
  single_id_descriptors "us-west-2"
    (worldOf [.ok [⟨some "a1"⟩], .ok [⟨none⟩]] deleteAll) [[⟨some "a1"⟩], [⟨none⟩]]
    (worldOf [.ok [⟨some "c1"⟩, ⟨some "c2"⟩]] deleteAll) [[⟨some "c1"⟩, ⟨some "c2"⟩]]
    (worldOf [.ok [⟨some "f1"⟩]] deleteNone) [[⟨some "f1"⟩]]
    (worldOf [.ok [⟨some "s1"⟩]] deleteAll) [[⟨some "s1"⟩]]
    rfl rfl rfl rfl

/-- C8: when every `NextPage` call succeeds, every descriptor in the batch of
`sweepAssessmentDelegations` pairs `newResourceAssessmentDelegation` with exactly the two
attributes "assessment_id", the delegation's `AssessmentId`, and "delegation_id", the
delegation's `Id`; every descriptor in the batch of `sweepAssessmentReports` pairs
`newResourceAssessmentReport` with exactly the two attributes "id", the report's `Id`,
and "assessment_id", the report's `AssessmentId`. -/
theorem composite_id_descriptors (region : String)
    (wd : World DelegationMetadata) (pd : List (List DelegationMetadata))
    (wr : World AssessmentReportMetadata) (pr : List (List AssessmentReportMetadata))
    (hd : wd.pages = pd.map Except.ok) (hr : wr.pages = pr.map Except.ok) :
    (sweepAssessmentDelegations wd region).orchestrated
        = [pd.flatten.map fun d =>
            ⟨.newResourceAssessmentDelegation, wd.client,
              [⟨"assessment_id", aws.ToString d.AssessmentId⟩,
               ⟨"delegation_id", aws.ToString d.Id⟩]⟩]
      ∧ (sweepAssessmentReports wr region).orchestrated
        = [pr.flatten.map fun report =>
            ⟨.newResourceAssessmentReport, wr.client,
              [⟨"id", aws.ToString report.Id⟩,
               ⟨"assessment_id", aws.ToString report.AssessmentId⟩]⟩] :=
  ⟨SweepKind.orchestrated_of_listing_ok .AssessmentDelegations wd region pd hd,
   SweepKind.orchestrated_of_listing_ok .AssessmentReports wr region pr hr⟩

/-- A delegation and a report whose parent and child ids differ. -/
theorem composite_id_descriptors_witness :
    (sweepAssessmentDelegations
        (worldOf [.ok [⟨some "child-1", some "parent-1"⟩]] deleteAll) "us-west-2").orchestrated
        = [[⟨.newResourceAssessmentDelegation, some ⟨"us-west-2"⟩,
            [⟨"assessment_id", "parent-1"⟩, ⟨"delegation_id", "child-1"⟩]⟩]]
      ∧ (sweepAssessmentReports
        (worldOf [.ok [⟨some "child-2", some "parent-2"⟩]] deleteAll) "us-west-2").orchestrated
        = [[⟨.newResourceAssessmentReport, some ⟨"us-west-2"⟩,
            [⟨"id", "child-2"⟩, ⟨"assessment_id", "parent-2"⟩]⟩]] :=
  composite_id_descriptors "us-west-2"
    (worldOf [.ok [⟨some "child-1", some "parent-1"⟩]] deleteAll)
    [[⟨some "child-1", some "parent-1"⟩]]
    (worldOf [.ok [⟨some "child-2", some "parent-2"⟩]] deleteAll)
    [[⟨some "child-2", some "parent-2"⟩]]
    rfl rfl

/-! ## Where the code departs from its documentation -/

/-- C9: `isCompleteSetupError` accepts the access-denied error of a caller that lacks an
IAM permission, although its message does not say that Audit Manager has yet to be set
up. -/
theorem isCompleteSetupError_accepts_permission_error :
    indicatesSetupIncomplete permissionMessage = false
      ∧ isCompleteSetupError (some (.AccessDeniedException permissionMessage)) = true := by
  decide

/-- C10: on a state whose only resource is a channel that `FindChannelByID` still finds,
`testAccCheckChannelDestroy` looks the channel up and returns nil. -/
theorem testAccCheckChannelDestroy_passes_existing_channel :
    channelStillThere.FindChannelByID "1234567" = .ok ⟨some "1234567", "IDLE"⟩
      ∧ testAccCheckChannelDestroy channelStillThere
          [("aws_medialive_channel.test", ⟨"aws_medialive_channel", ⟨"1234567"⟩⟩)]
        = ⟨none, ["1234567"]⟩ := by
  exact ⟨rfl, by decide⟩

/-! ## The sweeper registrations -/

/-- C11 as stated fails: the dependencies that `init` declares for the sweeper
`aws_auditmanager_assessment` contain neither `aws_auditmanager_assessment_delegation`
nor `aws_auditmanager_assessment_report`. -/
theorem assessment_sweeper_omits_children :
    ∃ deps, dependenciesOf "aws_auditmanager_assessment" = some deps
      ∧ "aws_auditmanager_assessment_delegation" ∉ deps
      ∧ "aws_auditmanager_assessment_report" ∉ deps :=
  ⟨_, rfl, by decide, by decide⟩

/-- C11, as the code has it: among the sweepers registered in `init`, the sweeper
`aws_auditmanager_assessment` (running `sweepAssessments`) declares exactly the sweepers
`aws_auditmanager_control`, `aws_auditmanager_framework`, `aws_iam_role` and
`aws_s3_bucket` as dependencies; the sweepers of its child objects are registered, are
not among these, and like every other Audit Manager sweeper declare no dependency. -/
theorem init_declared_dependencies :
    init.lookup "aws_auditmanager_assessment"
        = some ⟨"aws_auditmanager_assessment", .Assessments,
            ["aws_auditmanager_control", "aws_auditmanager_framework", "aws_iam_role",
             "aws_s3_bucket"]⟩
      ∧ dependenciesOf "aws_auditmanager_assessment_delegation" = some []
      ∧ dependenciesOf "aws_auditmanager_assessment_report" = some []
      ∧ dependenciesOf "aws_auditmanager_control" = some []
      ∧ dependenciesOf "aws_auditmanager_framework" = some []
      ∧ dependenciesOf "aws_auditmanager_framework_share" = some []
      ∧ init.map Prod.fst
        = ["aws_auditmanager_assessment", "aws_auditmanager_assessment_delegation",
           "aws_auditmanager_assessment_report", "aws_auditmanager_control",
           "aws_auditmanager_framework", "aws_auditmanager_framework_share"] := by
  decide

/-! ## The channel checks -/

/-- C13: `testAccCheckChannelStatus(ctx, name, state)` returns nil if and only if the
state has a resource called `name`, its primary ID is not empty, `FindChannelByID` on that
ID succeeds and the `State` of the looked-up channel is `state`; when the lookup succeeds
with any other state, it returns an error whose message ends in
"not (<state>) got: <looked-up state>". -/
theorem testAccCheckChannelStatus_nil_iff (w : TestWorld) (name state : String)
    (resources : List (String × ResourceState)) :
    ((testAccCheckChannelStatus w name state resources).ret = none
        ↔ ∃ rs resp, resources.lookup name = some rs ∧ rs.Primary.ID ≠ ""
            ∧ w.FindChannelByID rs.Primary.ID = .ok resp ∧ resp.State = state)
      ∧ (∀ rs resp, resources.lookup name = some rs → rs.Primary.ID ≠ ""
          → w.FindChannelByID rs.Primary.ID = .ok resp → resp.State ≠ state
          → ∃ r, (testAccCheckChannelStatus w name state resources).ret = some r
              ∧ r.Error = w.problemMessage .ErrActionChecking rs.Primary.ID
                  ++ ("not (" ++ state ++ ") got: " ++ resp.State)) := by
  unfold testAccCheckChannelStatus
  cases hl : resources.lookup name with
  | none =>
    dsimp only
    refine ⟨⟨(fun h => by cases h), ?_⟩, ?_⟩
    · rintro ⟨_, _, h, _⟩
      cases h
    · intro _ _ h
      cases h
  | some rs =>
    dsimp only
    by_cases hid : rs.Primary.ID = ""
    · rw [if_pos hid]
      refine ⟨⟨(fun h => by cases h), ?_⟩, ?_⟩
      · rintro ⟨_, _, h, hne, _⟩
        cases h
        exact absurd hid hne
      · intro _ _ h hne
        cases h
        exact absurd hid hne
    · rw [if_neg hid]
      cases hf : w.FindChannelByID rs.Primary.ID with
      | error err =>
        dsimp only
        refine ⟨⟨(fun h => by cases h), ?_⟩, ?_⟩
        · rintro ⟨_, _, h, _, hf2, _⟩
          cases h
          rw [hf] at hf2
          cases hf2
        · intro _ _ h _ hf2
          cases h
          rw [hf] at hf2
          cases hf2
      | ok resp =>
        dsimp only
        by_cases hst : resp.State = state
        · have hb : (resp.State != state) = false := by simp [hst]
          rw [hb, if_neg Bool.false_ne_true]
          refine ⟨⟨fun _ => ⟨rs, resp, rfl, hid, hf, hst⟩, fun _ => rfl⟩, ?_⟩
          intro _ _ h _ hf2 hne
          cases h
          rw [hf] at hf2
          cases hf2
          exact absurd hst hne
        · have hb : (resp.State != state) = true := by simpa using hst
          rw [hb, if_pos rfl]
          refine ⟨⟨(fun h => by cases h), ?_⟩, ?_⟩
          · rintro ⟨_, _, h, _, hf2, hst2⟩
            cases h
            rw [hf] at hf2
            cases hf2
            exact absurd hst2 hst
          · intro _ _ h _ hf2 _
            cases h
            rw [hf] at hf2
            cases hf2
            exact ⟨_, rfl, by simp [create.Error, GoError.Error]⟩

/-! ## Running a sweep again -/

/-- The aggregated error of the spec's orchestrator is nil or lists one entry for each
failed delete. -/
theorem orchestrator_nil_or_entries (delete : Sweepable → Option GoError)
    (batch : List Sweepable) :
    sweep.SweepOrchestratorWithContext delete batch = none
      ∨ sweep.SweepOrchestratorWithContext delete batch
        = some (.multi (batch.filterMap fun d => (delete d).map (deleteFailure d))) := by
  unfold sweep.SweepOrchestratorWithContext
  cases batch.filterMap fun d => (delete d).map (deleteFailure d) with
  | nil => exact Or.inl rfl
  | cons e es => exact Or.inr rfl

/-- C14: a sweep function that runs, after an earlier orchestrator run over `batch1`
which left the remote objects `remoteAfter remote attempt1 batch1`, with deletes that
treat a missing object as deleted: the objects the earlier run deleted are gone, the
delete of an object that is gone does not fail, and the error the function returns, if
any, has one entry that wraps the orchestrator's aggregated error, in which every entry
is the failed delete of a listed object that still exists. -/
theorem resweep_mentions_only_existing (k : SweepKind) (w : World k.Item) (region : String)
    (ps : List (List k.Item)) (remote batch1 : List Sweepable)
    (attempt1 attempt2 : Sweepable → Option GoError)
    (hpages : w.pages = ps.map Except.ok)
    (horch : w.SweepOrchestratorWithContext
      = sweep.SweepOrchestratorWithContext
          (deleteOnRemote (remoteAfter remote attempt1 batch1) attempt2)) :
    (∀ d ∈ batch1, attempt1 d = none → d ∉ remoteAfter remote attempt1 batch1)
      ∧ (∀ d, d ∉ remoteAfter remote attempt1 batch1
          → deleteOnRemote (remoteAfter remote attempt1 batch1) attempt2 d = none)
      ∧ ((k.sweep w region).ret = none
          ∨ ∃ entries,
            (k.sweep w region).ret
                = some (.multi [.wrapError
                    ("error sweeping AuditManager " ++ k.label ++ " for " ++ region ++ ": ")
                    (.multi entries)])
              ∧ ∀ entry ∈ entries, ∃ d err,
                  d ∈ ps.flatten.map (k.descriptor w.client)
                    ∧ d ∈ remoteAfter remote attempt1 batch1
                    ∧ attempt2 d = some err ∧ entry = deleteFailure d err) := by
  refine ⟨?_, ?_, ?_⟩
  · intro d hd hnone hmem
    have h := (List.mem_filter.mp hmem).2
    simp [hd, hnone] at h
  · intro d hd
    simp [deleteOnRemote, hd]
  · rw [SweepKind.sweep_eq_generic, sweepGeneric_listing_ok k w region ps hpages, horch]
    dsimp only
    by_cases hs : sweep.SkipSweepError w.skipSignal w.clientErr = true
    · rw [if_pos hs]
      exact Or.inl rfl
    · rw [if_neg hs]
      rcases orchestrator_nil_or_entries
          (deleteOnRemote (remoteAfter remote attempt1 batch1) attempt2)
          (ps.flatten.map (k.descriptor w.client)) with h | h
      · rw [h]
        exact Or.inl rfl
      · rw [h]
        refine Or.inr ⟨_, rfl, ?_⟩
        intro entry hentry
        obtain ⟨d, hd, hde⟩ := List.mem_filterMap.mp hentry
        cases hdel : deleteOnRemote (remoteAfter remote attempt1 batch1) attempt2 d with
        | none => simp [hdel] at hde
        | some err =>
          rw [hdel] at hde
          have hentry2 : deleteFailure d err = entry := by simpa using hde
          by_cases hmem : d ∈ remoteAfter remote attempt1 batch1
          · have hatt : attempt2 d = some err := by simpa [deleteOnRemote, hmem] using hdel
            exact ⟨d, err, hd, hmem, hatt, hentry2.symm⟩
          · simp [deleteOnRemote, hmem] at hdel

/-- A second assessments sweep whose listing still shows `a1`, which the first run
deleted, next to `a2`, whose delete failed and fails again. -/
theorem resweep_mentions_only_existing_witness :
    (∀ d ∈ [assessmentIn "a1", assessmentIn "a2"], deleteOnlyFirst d = none
        → d ∉ remoteAfter [assessmentIn "a1", assessmentIn "a2"] deleteOnlyFirst
            [assessmentIn "a1", assessmentIn "a2"])
      ∧ (∀ d, d ∉ remoteAfter [assessmentIn "a1", assessmentIn "a2"] deleteOnlyFirst
            [assessmentIn "a1", assessmentIn "a2"]
          → deleteOnRemote
              (remoteAfter [assessmentIn "a1", assessmentIn "a2"] deleteOnlyFirst
                [assessmentIn "a1", assessmentIn "a2"]) deleteNone d = none)
      ∧ ((SweepKind.Assessments.sweep
            (worldOf [.ok [⟨some "a1"⟩, ⟨some "a2"⟩]]
              (deleteOnRemote
                (remoteAfter [assessmentIn "a1", assessmentIn "a2"] deleteOnlyFirst
                  [assessmentIn "a1", assessmentIn "a2"]) deleteNone))
            "us-west-2").ret = none
          ∨ ∃ entries,
            (SweepKind.Assessments.sweep
              (worldOf [.ok [⟨some "a1"⟩, ⟨some "a2"⟩]]
                (deleteOnRemote
                  (remoteAfter [assessmentIn "a1", assessmentIn "a2"] deleteOnlyFirst
                    [assessmentIn "a1", assessmentIn "a2"]) deleteNone))
              "us-west-2").ret
                = some (.multi [.wrapError
                    ("error sweeping AuditManager " ++ SweepKind.Assessments.label ++ " for "
                      ++ "us-west-2" ++ ": ")
                    (.multi entries)])
              ∧ ∀ entry ∈ entries, ∃ d err,
                  d ∈ [[(⟨some "a1"⟩ : AssessmentMetadataItem), ⟨some "a2"⟩]].flatten.map
                      (SweepKind.Assessments.descriptor (some ⟨"us-west-2"⟩))
                    ∧ d ∈ remoteAfter [assessmentIn "a1", assessmentIn "a2"] deleteOnlyFirst
                        [assessmentIn "a1", assessmentIn "a2"]
                    ∧ deleteNone d = some err ∧ entry = deleteFailure d err) :=
  resweep_mentions_only_existing .Assessments
    (worldOf [.ok [⟨some "a1"⟩, ⟨some "a2"⟩]]
      (deleteOnRemote
        (remoteAfter [assessmentIn "a1", assessmentIn "a2"] deleteOnlyFirst
          [assessmentIn "a1", assessmentIn "a2"]) deleteNone))
    "us-west-2" [[⟨some "a1"⟩, ⟨some "a2"⟩]] [assessmentIn "a1", assessmentIn "a2"]
    [assessmentIn "a1", assessmentIn "a2"] deleteOnlyFirst deleteNone rfl rfl

/-! ## Where the sweep functions depart from what they announce -/

/-- C16: in a world where client acquisition succeeds, the listing returns one page
with one item and the orchestrator returns an error that is a skip signal, each of the
six sweep functions returns a non-nil error, the orchestrator's error wrapped as the one
entry of an aggregated error. -/
theorem sweep_reports_orchestrator_skip_signal (k : SweepKind) :
    sweep.SkipSweepError
        (worldWith (some ⟨"us-west-2"⟩) none [.ok [k.sampleItem]]
          (fun _ => some unsupportedError)).skipSignal
        (some unsupportedError) = true
      ∧ (k.sweep
          (worldWith (some ⟨"us-west-2"⟩) none [.ok [k.sampleItem]]
            (fun _ => some unsupportedError))
          "us-west-2").ret
        = some (.multi [.wrapError
            ("error sweeping AuditManager " ++ k.label ++ " for us-west-2: ")
            unsupportedError]) := by
  cases k <;> exact ⟨rfl, by decide⟩

/-- C17: in a world where `sweep.SharedRegionalSweepClient` returns no client and an
error, each of the six sweep functions still calls `NextPage` and hands the descriptor of
the listed item, built with the nil client, to the orchestrator, and returns nil. -/
theorem sweep_goes_on_without_client (k : SweepKind) :
    k.sweep
        (worldWith none (some (.errorString "no valid credential sources found"))
          [.ok [k.sampleItem]] (fun _ => none))
        "us-west-2"
      = ⟨none, [Call.NextPage k.input,
          Call.SweepOrchestratorWithContext [k.descriptor none k.sampleItem]]⟩ := by
  cases k <;> decide

/-! ## The sequence of calls -/

/-- The results of the `NextPage` calls are all pages, or some pages and then an error. -/
theorem PageResult.script_cases {Item : Type} (l : List (PageResult Item)) :
    (∃ ps : List (List Item), l = ps.map Except.ok)
      ∨ ∃ (pre : List (List Item)) (e : GoError) (rest : List (PageResult Item)),
          l = pre.map Except.ok ++ Except.error e :: rest := by
  induction l with
  | nil => exact Or.inl ⟨[], rfl⟩
  | cons r l ih =>
    cases r with
    | error e => exact Or.inr ⟨[], e, l, rfl⟩
    | ok items =>
      rcases ih with ⟨ps, h⟩ | ⟨pre, e, rest, h⟩
      · exact Or.inl ⟨items :: ps, by rw [h]; rfl⟩
      · exact Or.inr ⟨items :: pre, e, rest, by rw [h]; rfl⟩

theorem fetched_map_ok {Item : Type} (ps : List (List Item)) :
    fetched (ps.map (Except.ok : List Item → PageResult Item)) = ps.length := by
  induction ps with
  | nil => rfl
  | cons items ps ih => simp [fetched, ih]

theorem fetched_map_ok_error {Item : Type} (pre : List (List Item)) (e : GoError)
    (rest : List (PageResult Item)) :
    fetched (pre.map Except.ok ++ Except.error e :: rest) = pre.length + 1 := by
  induction pre with
  | nil => rfl
  | cons items pre ih => simp [fetched, ih]

theorem err_none_of_mem_map_ok {Item : Type} (ps : List (List Item)) (r : PageResult Item)
    (h : r ∈ ps.map Except.ok) : PageResult.err r = none := by
  obtain ⟨items, _, rfl⟩ := List.mem_map.mp h
  rfl

theorem Outcome.listed_replicate_nextPage (r : Option GoError) (n : Nat) (i : ListInput) :
    (Outcome.mk r (List.replicate n (Call.NextPage i))).listed = List.replicate n i := by
  induction n with
  | zero => rfl
  | succ n ih =>
    simp only [Outcome.listed, List.replicate_succ, List.filterMap_cons] at ih ⊢
    rw [ih]

theorem Outcome.listed_replicate_then (r : Option GoError) (n : Nat) (i : ListInput)
    (b : List Sweepable) :
    (Outcome.mk r (List.replicate n (Call.NextPage i)
      ++ [Call.SweepOrchestratorWithContext b])).listed = List.replicate n i := by
  have h := Outcome.listed_replicate_nextPage r n i
  simp only [Outcome.listed] at h ⊢
  rw [List.filterMap_append, h]
  simp

/-- The list calls of a sweep function: one per consumed `NextPage` result, each with the
input of its kind. -/
theorem SweepKind.listed_eq (k : SweepKind) (w : World k.Item) (region : String) :
    (k.sweep w region).listed = List.replicate (fetched w.pages) k.input := by
  rcases PageResult.script_cases w.pages with ⟨ps, h⟩ | ⟨pre, e, rest, h⟩
  · rw [SweepKind.sweep_eq_generic, sweepGeneric_listing_ok k w region ps h, h, fetched_map_ok]
    exact Outcome.listed_replicate_then _ _ _ _
  · rw [SweepKind.sweep_eq_generic, sweepGeneric_listing_error k w region pre e rest h, h,
      fetched_map_ok_error]
    exact Outcome.listed_replicate_nextPage _ _ _

/-- A paginator that signals exhaustion after the pages `ps` lets the page loop end after
exactly these results, given fuel for them. -/
theorem Paginator.results_of_exhaustsAfter {σ Item : Type} (p : Paginator σ Item)
    (ps : List (List Item)) :
    ∀ (s : σ) (fuel : Nat), p.exhaustsAfter s ps → ps.length ≤ fuel
      → p.results fuel s = some (ps.map Except.ok) := by
  induction ps with
  | nil =>
    intro s fuel hex _
    have h : p.HasMorePages s = false := hex
    cases fuel <;> simp [Paginator.results, h]
  | cons items ps ih =>
    intro s fuel hex hfuel
    obtain ⟨h1, h2, h3⟩ := hex
    cases fuel with
    | zero => simp at hfuel
    | succ fuel =>
      have hlen : ps.length ≤ fuel := by simpa using hfuel
      have hnp : p.NextPage s = (Except.ok items, (p.NextPage s).2) := by
        rw [← h2]
      unfold Paginator.results
      rw [if_pos h1, hnp]
      dsimp only
      rw [ih _ fuel h3 hlen]
      rfl

/-- C18: in every execution of a sweep function the orchestrator is invoked at most once;
it is invoked exactly once if and only if every `NextPage` result is a page; when it is
invoked, all pages were fetched before and its call is the last call of the execution, so
the batch it received is not touched again; and a listing without any item still hands
over the empty batch. -/
theorem orchestrator_invoked_once_after_listing (k : SweepKind) (w : World k.Item)
    (region : String) :
    (k.sweep w region).orchestrated.length ≤ 1
      ∧ ((k.sweep w region).orchestrated.length = 1 ↔ ∀ r ∈ w.pages, PageResult.err r = none)
      ∧ (∀ batch ∈ (k.sweep w region).orchestrated,
          (k.sweep w region).calls
            = List.replicate w.pages.length (Call.NextPage k.input)
                ++ [Call.SweepOrchestratorWithContext batch])
      ∧ (∀ ps : List (List k.Item), w.pages = ps.map Except.ok → ps.flatten = []
          → (k.sweep w region).orchestrated = [[]]) := by
  rcases PageResult.script_cases w.pages with ⟨ps, h⟩ | ⟨pre, e, rest, h⟩
  · have ho := SweepKind.orchestrated_of_listing_ok k w region ps h
    refine ⟨by rw [ho]; simp, ⟨fun _ r hr => ?_, fun _ => by rw [ho]; rfl⟩, ?_, ?_⟩
    · rw [h] at hr
      exact err_none_of_mem_map_ok ps r hr
    · intro batch hb
      rw [ho] at hb
      have hbe : batch = ps.flatten.map (k.descriptor w.client) := by simpa using hb
      rw [SweepKind.sweep_eq_generic, sweepGeneric_listing_ok k w region ps h, hbe, h]
      simp
    · intro ps2 h2 hempty
      rw [SweepKind.orchestrated_of_listing_ok k w region ps2 h2, hempty]
      rfl
  · have ho : (k.sweep w region).orchestrated = [] := by
      rw [SweepKind.sweep_eq_generic, sweepGeneric_listing_error k w region pre e rest h]
      exact Outcome.orchestrated_replicate_nextPage _ _ _
    have hmem : (Except.error e : PageResult k.Item) ∈ w.pages := by
      rw [h]
      simp
    refine ⟨by rw [ho]; simp, ⟨fun hlen => ?_, fun hall => ?_⟩, ?_, ?_⟩
    · rw [ho] at hlen
      simp at hlen
    · have := hall _ hmem
      simp [PageResult.err] at this
    · intro batch hb
      rw [ho] at hb
      simp at hb
    · intro ps2 h2 _
      rw [h2] at hmem
      have := err_none_of_mem_map_ok ps2 _ hmem
      simp [PageResult.err] at this

/-- C19: when the paginator of a sweep function signals exhaustion after `n` pages that
are all fetched without error, the page loop ends (given fuel for `n` iterations) after
exactly `n` `NextPage` calls, which the function makes one after the other before its
one orchestrator call; and in any execution the `NextPage` calls are those up to and
including the first failing one, none is made after it. -/
theorem listing_ends_at_exhaustion (k : SweepKind) (w : World k.Item) (region : String)
    {σ : Type} (p : Paginator σ k.Item) (s : σ) (ps : List (List k.Item)) (fuel : Nat)
    (hex : p.exhaustsAfter s ps) (hfuel : ps.length ≤ fuel)
    (hw : p.results fuel s = some w.pages) :
    p.results fuel s = some (ps.map Except.ok)
      ∧ (k.sweep w region).listed = List.replicate ps.length k.input
      ∧ (k.sweep w region).calls
          = List.replicate ps.length (Call.NextPage k.input)
              ++ [Call.SweepOrchestratorWithContext (ps.flatten.map (k.descriptor w.client))]
      ∧ ∀ (w2 : World k.Item) (pre : List (List k.Item)) (e : GoError)
          (rest : List (PageResult k.Item)), w2.pages = pre.map Except.ok ++ Except.error e :: rest
          → (k.sweep w2 region).calls = List.replicate (pre.length + 1) (Call.NextPage k.input) := by
  have hres := Paginator.results_of_exhaustsAfter p ps s fuel hex hfuel
  have hpages : w.pages = ps.map Except.ok := by
    rw [hres] at hw
    exact (Option.some.inj hw).symm
  refine ⟨hres, ?_, ?_, ?_⟩
  · rw [SweepKind.listed_eq, hpages, fetched_map_ok]
  · rw [SweepKind.sweep_eq_generic, sweepGeneric_listing_ok k w region ps hpages]
  · intro w2 pre e rest h2
    rw [SweepKind.sweep_eq_generic, sweepGeneric_listing_error k w2 region pre e rest h2]

/-- A frameworks sweep over a paginator with two pages. -/
theorem listing_ends_at_exhaustion_witness :
    (pagerOver [[(⟨some "f1"⟩ : AssessmentFrameworkMetadata)], [⟨some "f2"⟩]]).exhaustsAfter 0
        [[⟨some "f1"⟩], [⟨some "f2"⟩]]
      ∧ (pagerOver [[(⟨some "f1"⟩ : AssessmentFrameworkMetadata)], [⟨some "f2"⟩]]).results 2 0
        = some ([[(⟨some "f1"⟩ : AssessmentFrameworkMetadata)], [⟨some "f2"⟩]].map Except.ok)
      ∧ (SweepKind.Frameworks.sweep
          (worldOf [.ok [⟨some "f1"⟩], .ok [⟨some "f2"⟩]] deleteAll) "us-west-2").listed
        = List.replicate [[(⟨some "f1"⟩ : AssessmentFrameworkMetadata)], [⟨some "f2"⟩]].length
            SweepKind.Frameworks.input
      ∧ (SweepKind.Frameworks.sweep
          (worldOf [.ok [⟨some "f1"⟩], .ok [⟨some "f2"⟩]] deleteAll) "us-west-2").calls
        = List.replicate [[(⟨some "f1"⟩ : AssessmentFrameworkMetadata)], [⟨some "f2"⟩]].length
            (Call.NextPage SweepKind.Frameworks.input)
          ++ [Call.SweepOrchestratorWithContext
              ([[(⟨some "f1"⟩ : AssessmentFrameworkMetadata)], [⟨some "f2"⟩]].flatten.map
                (SweepKind.Frameworks.descriptor (some ⟨"us-west-2"⟩)))]
      ∧ ∀ (w2 : World AssessmentFrameworkMetadata) (pre : List (List AssessmentFrameworkMetadata))
          (e : GoError) (rest : List (PageResult AssessmentFrameworkMetadata)),
          w2.pages = pre.map Except.ok ++ Except.error e :: rest
          → (SweepKind.Frameworks.sweep w2 "us-west-2").calls
              = List.replicate (pre.length + 1) (Call.NextPage SweepKind.Frameworks.input) :=
  ⟨⟨rfl, rfl, rfl, rfl, rfl⟩,
    listing_ends_at_exhaustion .Frameworks
      (worldOf [.ok [⟨some "f1"⟩], .ok [⟨some "f2"⟩]] deleteAll) "us-west-2"
      (pagerOver [[⟨some "f1"⟩], [⟨some "f2"⟩]]) 0 [[⟨some "f1"⟩], [⟨some "f2"⟩]] 2
      ⟨rfl, rfl, rfl, rfl, rfl⟩ (by decide) rfl⟩

/-- C20: every `NextPage` call of `sweepControls` carries the input with
`ControlType = Custom`, of `sweepFrameworks` the input with `FrameworkType = Custom`, of
`sweepFrameworkShares` the input with `RequestType = Sent`, and of `sweepAssessments`,
`sweepAssessmentDelegations` and `sweepAssessmentReports` the input without any field
set: the list calls of an execution are as many copies of that one input as `NextPage`
results are consumed. -/
theorem list_inputs_carry_type_filter (region : String)
    (wa : World AssessmentMetadataItem) (wd : World DelegationMetadata)
    (wr : World AssessmentReportMetadata) (wc : World ControlMetadata)
    (wf : World AssessmentFrameworkMetadata) (ws : World AssessmentFrameworkShareRequest) :
    (sweepControls wc region).listed
        = List.replicate (fetched wc.pages) (.ListControlsInput (some .Custom))
      ∧ (sweepFrameworks wf region).listed
        = List.replicate (fetched wf.pages) (.ListAssessmentFrameworksInput (some .Custom))
      ∧ (sweepFrameworkShares ws region).listed
        = List.replicate (fetched ws.pages)
            (.ListAssessmentFrameworkShareRequestsInput (some .Sent))
      ∧ (sweepAssessments wa region).listed
        = List.replicate (fetched wa.pages) .ListAssessmentsInput
      ∧ (sweepAssessmentDelegations wd region).listed
        = List.replicate (fetched wd.pages) .GetDelegationsInput
      ∧ (sweepAssessmentReports wr region).listed
        = List.replicate (fetched wr.pages) .ListAssessmentReportsInput :=
  ⟨SweepKind.listed_eq .Controls wc region, SweepKind.listed_eq .Frameworks wf region,
   SweepKind.listed_eq .FrameworkShares ws region, SweepKind.listed_eq .Assessments wa region,
   SweepKind.listed_eq .AssessmentDelegations wd region,
   SweepKind.listed_eq .AssessmentReports wr region⟩

/-! ## The six functions as one procedure -/

theorem sweepGeneric_run_eq_procedure (k : SweepKind) (w : World k.Item) (region : String)
    (ps : List (PageResult k.Item)) (acc : List Sweepable) (calls : List Call) :
    sweepGeneric.run k w region ps acc calls
      = sweepProcedure.run k.input (k.descriptor) k.label w region ps acc calls := by
  induction ps generalizing acc calls with
  | nil => rfl
  | cons p ps ih =>
    cases p with
    | error e => rfl
    | ok items =>
      simp only [sweepGeneric.run, sweepProcedure.run, ih]

theorem SweepKind.sweep_eq_procedure (k : SweepKind) (w : World k.Item) (region : String) :
    k.sweep w region = sweepProcedure k.input k.descriptor k.label w region := by
  rw [SweepKind.sweep_eq_generic]
  exact sweepGeneric_run_eq_procedure k w region w.pages [] []

/-- C21: each of the six sweep functions is the one procedure `sweepProcedure` at its
list input, its descriptor builder and its label: for every world (client acquisition,
paginator results, orchestrator) and region the two give the same outcome, that is the
same returned error and the same sequence of list and orchestrator calls. -/
theorem sweeps_are_instances_of_one_procedure (region : String)
    (wa : World AssessmentMetadataItem) (wd : World DelegationMetadata)
    (wr : World AssessmentReportMetadata) (wc : World ControlMetadata)
    (wf : World AssessmentFrameworkMetadata) (ws : World AssessmentFrameworkShareRequest) :
    sweepAssessments wa region
        = sweepProcedure .ListAssessmentsInput
            (fun client assessment =>
              ⟨.newResourceAssessment, client, [⟨"id", aws.ToString assessment.Id⟩]⟩)
            "Assessments" wa region
      ∧ sweepAssessmentDelegations wd region
        = sweepProcedure .GetDelegationsInput
            (fun client d =>
              ⟨.newResourceAssessmentDelegation, client,
                [⟨"assessment_id", aws.ToString d.AssessmentId⟩,
                 ⟨"delegation_id", aws.ToString d.Id⟩]⟩)
            "Assessment Delegations" wd region
      ∧ sweepAssessmentReports wr region
        = sweepProcedure .ListAssessmentReportsInput
            (fun client report =>
              ⟨.newResourceAssessmentReport, client,
                [⟨"id", aws.ToString report.Id⟩,
                 ⟨"assessment_id", aws.ToString report.AssessmentId⟩]⟩)
            "Assessment Reports" wr region
      ∧ sweepControls wc region
        = sweepProcedure (.ListControlsInput (some .Custom))
            (fun client control =>
              ⟨.newResourceControl, client, [⟨"id", aws.ToString control.Id⟩]⟩)
            "Controls" wc region
      ∧ sweepFrameworks wf region
        = sweepProcedure (.ListAssessmentFrameworksInput (some .Custom))
            (fun client f => ⟨.newResourceFramework, client, [⟨"id", aws.ToString f.Id⟩]⟩)
            "Frameworks" wf region
      ∧ sweepFrameworkShares ws region
        = sweepProcedure (.ListAssessmentFrameworkShareRequestsInput (some .Sent))
            (fun client share =>
              ⟨.newResourceFrameworkShare, client, [⟨"id", aws.ToString share.Id⟩]⟩)
            "Framework Shares" ws region :=
  ⟨SweepKind.sweep_eq_procedure .Assessments wa region,
   SweepKind.sweep_eq_procedure .AssessmentDelegations wd region,
   SweepKind.sweep_eq_procedure .AssessmentReports wr region,
   SweepKind.sweep_eq_procedure .Controls wc region,
   SweepKind.sweep_eq_procedure .Frameworks wf region,
   SweepKind.sweep_eq_procedure .FrameworkShares ws region⟩

/-! ## The error of a failed orchestrator run -/

/-- C22: for each sweep function, when client acquisition returned no error, every
`NextPage` call succeeds and the orchestrator returns a non-nil error `e` on the batch,
the function returns an aggregated error with exactly one entry, whatever `e` is: the
entry unwraps to `e` and its message is "error sweeping AuditManager <Kind> for
<region>: " followed by the message of `e`. -/
theorem sweep_one_entry_for_orchestrator_error (k : SweepKind) (w : World k.Item)
    (region : String) (ps : List (List k.Item)) (e : GoError)
    (hclient : w.clientErr = none) (hpages : w.pages = ps.map Except.ok)
    (horch : w.SweepOrchestratorWithContext (ps.flatten.map (k.descriptor w.client)) = some e) :
    ∃ entry, aggregatedEntries (k.sweep w region).ret = some [entry]
      ∧ (k.sweep w region).ret = some (.multi [entry])
      ∧ entry.Unwrap = some e
      ∧ entry.Is e = true
      ∧ entry.Error
        = "error sweeping AuditManager " ++ k.label ++ " for " ++ region ++ ": " ++ e.Error := by
  have hret : (k.sweep w region).ret
      = some (.multi [.wrapError
          ("error sweeping AuditManager " ++ k.label ++ " for " ++ region ++ ": ") e]) := by
    rw [SweepKind.sweep_eq_generic, sweepGeneric_listing_ok k w region ps hpages, hclient, horch]
    rfl
  refine ⟨_, ?_, hret, rfl, GoError.Is_wrapError _ _, GoError.Error_wrapError _ _⟩
  rw [hret]
  rfl

/-- A controls sweep of two items whose deletes both fail: the orchestrator error with
two entries becomes one entry. -/
theorem sweep_one_entry_for_orchestrator_error_witness :
    (worldOf [.ok [⟨some "c1"⟩, ⟨some "c2"⟩]] deleteNone
        : World ControlMetadata).SweepOrchestratorWithContext
        ([[(⟨some "c1"⟩ : ControlMetadata), ⟨some "c2"⟩]].flatten.map
          (SweepKind.Controls.descriptor (some ⟨"us-west-2"⟩)))
        = some (.multi
            [deleteFailure ⟨.newResourceControl, some ⟨"us-west-2"⟩, [⟨"id", "c1"⟩]⟩
              (.GenericAPIError "ThrottlingException" "Rate exceeded"),
             deleteFailure ⟨.newResourceControl, some ⟨"us-west-2"⟩, [⟨"id", "c2"⟩]⟩
              (.GenericAPIError "ThrottlingException" "Rate exceeded")])
      ∧ ∃ entry,
        aggregatedEntries
            (SweepKind.Controls.sweep (worldOf [.ok [⟨some "c1"⟩, ⟨some "c2"⟩]] deleteNone)
              "us-west-2").ret = some [entry]
          ∧ (SweepKind.Controls.sweep (worldOf [.ok [⟨some "c1"⟩, ⟨some "c2"⟩]] deleteNone)
              "us-west-2").ret = some (.multi [entry])
          ∧ entry.Unwrap = some (.multi
              [deleteFailure ⟨.newResourceControl, some ⟨"us-west-2"⟩, [⟨"id", "c1"⟩]⟩
                (.GenericAPIError "ThrottlingException" "Rate exceeded"),
               deleteFailure ⟨.newResourceControl, some ⟨"us-west-2"⟩, [⟨"id", "c2"⟩]⟩
                (.GenericAPIError "ThrottlingException" "Rate exceeded")])
          ∧ entry.Is (.multi
              [deleteFailure ⟨.newResourceControl, some ⟨"us-west-2"⟩, [⟨"id", "c1"⟩]⟩
                (.GenericAPIError "ThrottlingException" "Rate exceeded"),
               deleteFailure ⟨.newResourceControl, some ⟨"us-west-2"⟩, [⟨"id", "c2"⟩]⟩
                (.GenericAPIError "ThrottlingException" "Rate exceeded")]) = true
          ∧ entry.Error
            = "error sweeping AuditManager " ++ SweepKind.Controls.label ++ " for " ++ "us-west-2"
                ++ ": "
              ++ (GoError.multi
                [deleteFailure ⟨.newResourceControl, some ⟨"us-west-2"⟩, [⟨"id", "c1"⟩]⟩
                  (.GenericAPIError "ThrottlingException" "Rate exceeded"),
                 deleteFailure ⟨.newResourceControl, some ⟨"us-west-2"⟩, [⟨"id", "c2"⟩]⟩
                  (.GenericAPIError "ThrottlingException" "Rate exceeded")]).Error :=
  ⟨rfl,
    sweep_one_entry_for_orchestrator_error .Controls
      (worldOf [.ok [⟨some "c1"⟩, ⟨some "c2"⟩]] deleteNone) "us-west-2"
      [[⟨some "c1"⟩, ⟨some "c2"⟩]] _ rfl rfl rfl⟩

/-! ## What `isCompleteSetupError` accepts -/

mutual
theorem GoError.asAccessDenied_iff_chain : ∀ e : GoError,
    e.asAccessDenied = true ↔ ∃ x ∈ e.chain, x.isAccessDeniedException = true
  | .AccessDeniedException m => by
    simp [GoError.asAccessDenied, GoError.chain, GoError.isAccessDeniedException]
  | .GenericAPIError c m => by
    simp [GoError.asAccessDenied, GoError.chain, GoError.isAccessDeniedException]
  | .errorString s => by
    simp [GoError.asAccessDenied, GoError.chain, GoError.isAccessDeniedException]
  | .wrapError f e => by
    simp [GoError.asAccessDenied, GoError.chain, GoError.isAccessDeniedException,
      GoError.asAccessDenied_iff_chain e]
  | .multi es => by
    simp [GoError.asAccessDenied, GoError.chain, GoError.isAccessDeniedException,
      GoError.anyAsAccessDenied_iff_chainAll es]
theorem GoError.anyAsAccessDenied_iff_chainAll : ∀ es : List GoError,
    GoError.anyAsAccessDenied es = true
      ↔ ∃ x ∈ GoError.chainAll es, x.isAccessDeniedException = true
  | [] => by simp [GoError.anyAsAccessDenied, GoError.chainAll]
  | e :: es => by
    simp [GoError.anyAsAccessDenied, GoError.chainAll, GoError.asAccessDenied_iff_chain e,
      GoError.anyAsAccessDenied_iff_chainAll es, or_and_right, exists_or]
end

theorem asAccessDenied_wrapTimes (depth : Nat) (message : String) :
    (wrapTimes depth (.AccessDeniedException message)).asAccessDenied = true := by
  induction depth with
  | zero => rfl
  | succ depth ih => simpa [wrapTimes, GoError.asAccessDenied] using ih

/-- C23: `isCompleteSetupError(err)` is true exactly when `err` is not nil and some error
of its unwrap chain is an `*types.AccessDeniedException`; so it is false for nil, and true
for an `AccessDeniedException` with any message under any number of wrappers. -/
theorem isCompleteSetupError_iff_chain (err : Option GoError) :
    (isCompleteSetupError err = true
        ↔ ∃ e, err = some e ∧ ∃ x ∈ e.chain, x.isAccessDeniedException = true)
      ∧ isCompleteSetupError none = false
      ∧ ∀ (message : String) (depth : Nat),
          isCompleteSetupError (some (wrapTimes depth (.AccessDeniedException message))) = true := by
  refine ⟨?_, rfl, ?_⟩
  · cases err with
    | none => simp [isCompleteSetupError]
    | some e =>
      have h := GoError.asAccessDenied_iff_chain e
      simp only [isCompleteSetupError, Option.some.injEq, exists_eq_left']
      rw [← h]
      cases e.asAccessDenied <;> simp
  · intro message depth
    simp [isCompleteSetupError, asAccessDenied_wrapTimes]

/-! ## When the destroy check fails -/

theorem testAccCheckChannelDestroy_run_acc (w : TestWorld)
    (resources : List (String × ResourceState)) (acc : List String) :
    testAccCheckChannelDestroy.run w resources acc
      = ⟨(testAccCheckChannelDestroy.run w resources []).ret,
         acc ++ (testAccCheckChannelDestroy.run w resources []).lookups⟩ := by
  induction resources generalizing acc with
  | nil => simp [testAccCheckChannelDestroy.run]
  | cons p rest ih =>
    obtain ⟨name, rs⟩ := p
    unfold testAccCheckChannelDestroy.run
    by_cases ht : (rs.Type_ != "aws_medialive_channel") = true
    · rw [if_pos ht, if_pos ht]
      exact ih acc
    · rw [if_neg ht, if_neg ht]
      dsimp only
      cases hf : w.FindChannelByID rs.Primary.ID with
      | ok resp =>
        dsimp only
        rw [ite_self, ite_self, ih (acc ++ [rs.Primary.ID]), ih ([] ++ [rs.Primary.ID])]
        simp
      | error err =>
        dsimp only
        by_cases hn : w.NotFound (some err) = true
        · rw [if_pos hn, if_pos hn, ih (acc ++ [rs.Primary.ID]), ih ([] ++ [rs.Primary.ID])]
          simp
        · rw [if_neg hn, if_neg hn]
          simp

/-- One step of the destroy check, on the first resource of the state. -/
theorem testAccCheckChannelDestroy_cons (w : TestWorld) (name : String) (rs : ResourceState)
    (rest : List (String × ResourceState)) :
    testAccCheckChannelDestroy w ((name, rs) :: rest)
      = if rs.Type_ = "aws_medialive_channel" then
          match w.FindChannelByID rs.Primary.ID with
          | .ok _ =>
            ⟨(testAccCheckChannelDestroy w rest).ret,
              rs.Primary.ID :: (testAccCheckChannelDestroy w rest).lookups⟩
          | .error err =>
            if w.NotFound (some err) then
              ⟨(testAccCheckChannelDestroy w rest).ret,
                rs.Primary.ID :: (testAccCheckChannelDestroy w rest).lookups⟩
            else ⟨some (create.Error w .ErrActionCheckingDestroyed rs.Primary.ID err),
              [rs.Primary.ID]⟩
        else testAccCheckChannelDestroy w rest := by
  unfold testAccCheckChannelDestroy
  conv_lhs => unfold testAccCheckChannelDestroy.run
  by_cases ht : rs.Type_ = "aws_medialive_channel"
  · have hb : (rs.Type_ != "aws_medialive_channel") = false := by simp [ht]
    rw [if_pos ht, hb, if_neg Bool.false_ne_true]
    dsimp only
    cases hf : w.FindChannelByID rs.Primary.ID with
    | ok resp =>
      dsimp only
      rw [ite_self, testAccCheckChannelDestroy_run_acc]
      simp
    | error err =>
      dsimp only
      by_cases hn : w.NotFound (some err) = true
      · rw [if_pos hn, if_pos hn, testAccCheckChannelDestroy_run_acc]
        simp
      · rw [if_neg hn, if_neg hn]
        simp
  · have hb : (rs.Type_ != "aws_medialive_channel") = true := by simpa using ht
    rw [if_neg ht, hb, if_pos rfl]

/-- C24: `testAccCheckChannelDestroy(ctx)` returns a non-nil error if and only if the
state has a resource of type `aws_medialive_channel` whose lookup fails with an error that
`tfresource.NotFound` does not accept; every id it looks up is the id of a resource of that
type, and the outcome is the same as on the state without the resources of other types. -/
theorem testAccCheckChannelDestroy_fails_iff (w : TestWorld)
    (resources : List (String × ResourceState)) :
    ((testAccCheckChannelDestroy w resources).ret ≠ none
        ↔ ∃ p ∈ resources, p.2.Type_ = "aws_medialive_channel"
            ∧ ∃ err, w.FindChannelByID p.2.Primary.ID = .error err
              ∧ w.NotFound (some err) = false)
      ∧ (∀ id ∈ (testAccCheckChannelDestroy w resources).lookups,
          ∃ p ∈ resources, p.2.Type_ = "aws_medialive_channel" ∧ p.2.Primary.ID = id)
      ∧ testAccCheckChannelDestroy w resources
        = testAccCheckChannelDestroy w
            (resources.filter fun p => p.2.Type_ = "aws_medialive_channel") := by
  induction resources with
  | nil =>
    refine ⟨⟨fun h => absurd rfl h, ?_⟩, ?_, rfl⟩
    · rintro ⟨_, hp, _⟩
      cases hp
    · intro id hid
      cases hid
  | cons p rest ih =>
    obtain ⟨name, rs⟩ := p
    obtain ⟨ih1, ih2, ih3⟩ := ih
    by_cases ht : rs.Type_ = "aws_medialive_channel"
    · have hfilter : ((name, rs) :: rest).filter (fun p => p.2.Type_ = "aws_medialive_channel")
          = (name, rs) :: rest.filter (fun p => p.2.Type_ = "aws_medialive_channel") := by
        simp [List.filter_cons, ht]
      rw [hfilter, testAccCheckChannelDestroy_cons, testAccCheckChannelDestroy_cons,
        if_pos ht, if_pos ht, ← ih3]
      cases hf : w.FindChannelByID rs.Primary.ID with
      | ok resp =>
        dsimp only
        refine ⟨⟨fun h => ?_, ?_⟩, ?_, rfl⟩
        · obtain ⟨q, hq, hrest⟩ := ih1.mp h
          exact ⟨q, List.mem_cons_of_mem _ hq, hrest⟩
        · rintro ⟨q, hq, hqt, err, hqf, hqn⟩
          rcases List.mem_cons.mp hq with rfl | hq
          · rw [hf] at hqf
            cases hqf
          · exact ih1.mpr ⟨q, hq, hqt, err, hqf, hqn⟩
        · intro id hid
          rcases List.mem_cons.mp hid with rfl | hid
          · exact ⟨(name, rs), List.mem_cons_self _ _, ht, rfl⟩
          · obtain ⟨q, hq, hrest⟩ := ih2 id hid
            exact ⟨q, List.mem_cons_of_mem _ hq, hrest⟩
      | error err =>
        dsimp only
        by_cases hn : w.NotFound (some err) = true
        · rw [if_pos hn]
          refine ⟨⟨fun h => ?_, ?_⟩, ?_, rfl⟩
          · obtain ⟨q, hq, hrest⟩ := ih1.mp h
            exact ⟨q, List.mem_cons_of_mem _ hq, hrest⟩
          · rintro ⟨q, hq, hqt, err2, hqf, hqn⟩
            rcases List.mem_cons.mp hq with rfl | hq
            · rw [hf] at hqf
              cases hqf
              rw [hn] at hqn
              cases hqn
            · exact ih1.mpr ⟨q, hq, hqt, err2, hqf, hqn⟩
          · intro id hid
            rcases List.mem_cons.mp hid with rfl | hid
            · exact ⟨(name, rs), List.mem_cons_self _ _, ht, rfl⟩
            · obtain ⟨q, hq, hrest⟩ := ih2 id hid
              exact ⟨q, List.mem_cons_of_mem _ hq, hrest⟩
        · rw [if_neg hn]
          have hn2 : w.NotFound (some err) = false := by
            cases h : w.NotFound (some err) with
            | false => rfl
            | true => exact absurd h hn
          refine ⟨⟨fun _ => ⟨(name, rs), List.mem_cons_self _ _, ht, err, hf, hn2⟩,
            fun _ h => by cases h⟩, ?_, rfl⟩
          intro id hid
          rcases List.mem_cons.mp hid with rfl | hid
          · exact ⟨(name, rs), List.mem_cons_self _ _, ht, rfl⟩
          · cases hid
    · have hfilter : ((name, rs) :: rest).filter (fun p => p.2.Type_ = "aws_medialive_channel")
          = rest.filter (fun p => p.2.Type_ = "aws_medialive_channel") := by
        simp [List.filter_cons, ht]
      rw [hfilter, testAccCheckChannelDestroy_cons, if_neg ht]
      refine ⟨⟨fun h => ?_, ?_⟩, ?_, ih3⟩
      · obtain ⟨q, hq, hrest⟩ := ih1.mp h
        exact ⟨q, List.mem_cons_of_mem _ hq, hrest⟩
      · rintro ⟨q, hq, hqt, hrest⟩
        rcases List.mem_cons.mp hq with rfl | hq
        · exact absurd hqt ht
        · exact ih1.mpr ⟨q, hq, hqt, hrest⟩
      · intro id hid
        obtain ⟨q, hq, hrest⟩ := ih2 id hid
        exact ⟨q, List.mem_cons_of_mem _ hq, hrest⟩

/-! ## Items without an id -/

/-- C25: when every `NextPage` call succeeds, each of the six sweep functions hands over
a batch with one descriptor per listed item, also for an item whose `Id` or `AssessmentId`
is nil: the value of the attribute is then the empty string, and the length of the batch
is the number of listed items. -/
theorem nil_ids_become_empty_strings (region : String)
    (wa : World AssessmentMetadataItem) (pa : List (List AssessmentMetadataItem))
    (wd : World DelegationMetadata) (pd : List (List DelegationMetadata))
    (wr : World AssessmentReportMetadata) (pr : List (List AssessmentReportMetadata))
    (wc : World ControlMetadata) (pc : List (List ControlMetadata))
    (wf : World AssessmentFrameworkMetadata) (pf : List (List AssessmentFrameworkMetadata))
    (ws : World AssessmentFrameworkShareRequest)
    (pshares : List (List AssessmentFrameworkShareRequest))
    (ha : wa.pages = pa.map Except.ok) (hd : wd.pages = pd.map Except.ok)
    (hr : wr.pages = pr.map Except.ok) (hc : wc.pages = pc.map Except.ok)
    (hf : wf.pages = pf.map Except.ok) (hs : ws.pages = pshares.map Except.ok) :
    (∃ batch, (sweepAssessments wa region).orchestrated = [batch]
        ∧ batch.length = pa.flatten.length
        ∧ batch.map (fun d => d.attrs)
          = pa.flatten.map fun item => [⟨"id", item.Id.getD ""⟩])
      ∧ (∃ batch, (sweepAssessmentDelegations wd region).orchestrated = [batch]
        ∧ batch.length = pd.flatten.length
        ∧ batch.map (fun d => d.attrs)
          = pd.flatten.map fun item =>
              [⟨"assessment_id", item.AssessmentId.getD ""⟩, ⟨"delegation_id", item.Id.getD ""⟩])
      ∧ (∃ batch, (sweepAssessmentReports wr region).orchestrated = [batch]
        ∧ batch.length = pr.flatten.length
        ∧ batch.map (fun d => d.attrs)
          = pr.flatten.map fun item =>
              [⟨"id", item.Id.getD ""⟩, ⟨"assessment_id", item.AssessmentId.getD ""⟩])
      ∧ (∃ batch, (sweepControls wc region).orchestrated = [batch]
        ∧ batch.length = pc.flatten.length
        ∧ batch.map (fun d => d.attrs)
          = pc.flatten.map fun item => [⟨"id", item.Id.getD ""⟩])
      ∧ (∃ batch, (sweepFrameworks wf region).orchestrated = [batch]
        ∧ batch.length = pf.flatten.length
        ∧ batch.map (fun d => d.attrs)
          = pf.flatten.map fun item => [⟨"id", item.Id.getD ""⟩])
      ∧ (∃ batch, (sweepFrameworkShares ws region).orchestrated = [batch]
        ∧ batch.length = pshares.flatten.length
        ∧ batch.map (fun d => d.attrs)
          = pshares.flatten.map fun item => [⟨"id", item.Id.getD ""⟩]) := by
  have htos : ∀ o : Option String, aws.ToString o = o.getD "" := by
    intro o
    cases o <;> rfl
  refine ⟨⟨_, SweepKind.orchestrated_of_listing_ok .Assessments wa region pa ha, ?_, ?_⟩,
    ⟨_, SweepKind.orchestrated_of_listing_ok .AssessmentDelegations wd region pd hd, ?_, ?_⟩,
    ⟨_, SweepKind.orchestrated_of_listing_ok .AssessmentReports wr region pr hr, ?_, ?_⟩,
    ⟨_, SweepKind.orchestrated_of_listing_ok .Controls wc region pc hc, ?_, ?_⟩,
    ⟨_, SweepKind.orchestrated_of_listing_ok .Frameworks wf region pf hf, ?_, ?_⟩,
    ⟨_, SweepKind.orchestrated_of_listing_ok .FrameworkShares ws region pshares hs, ?_, ?_⟩⟩
  all_goals first
    | exact List.length_map _ _
    | (rw [List.map_map]
       congr 1
       funext item
       simp [Function.comp, SweepKind.descriptor, htos])

/-- Six sweeps over one page each, every page with an item whose ids are nil. -/
theorem nil_ids_become_empty_strings_witness :
    (∃ batch, (sweepAssessments (worldOf [.ok [⟨none⟩, ⟨some "a2"⟩]] deleteAll)
          "us-west-2").orchestrated = [batch]
        ∧ batch.length = [[(⟨none⟩ : AssessmentMetadataItem), ⟨some "a2"⟩]].flatten.length
        ∧ batch.map (fun d => d.attrs)
          = [[(⟨none⟩ : AssessmentMetadataItem), ⟨some "a2"⟩]].flatten.map fun item =>
              [⟨"id", item.Id.getD ""⟩])
      ∧ (∃ batch, (sweepAssessmentDelegations (worldOf [.ok [⟨none, none⟩]] deleteAll)
          "us-west-2").orchestrated = [batch]
        ∧ batch.length = [[(⟨none, none⟩ : DelegationMetadata)]].flatten.length
        ∧ batch.map (fun d => d.attrs)
          = [[(⟨none, none⟩ : DelegationMetadata)]].flatten.map fun item =>
              [⟨"assessment_id", item.AssessmentId.getD ""⟩, ⟨"delegation_id", item.Id.getD ""⟩])
      ∧ (∃ batch, (sweepAssessmentReports (worldOf [.ok [⟨some "r1", none⟩]] deleteAll)
          "us-west-2").orchestrated = [batch]
        ∧ batch.length = [[(⟨some "r1", none⟩ : AssessmentReportMetadata)]].flatten.length
        ∧ batch.map (fun d => d.attrs)
          = [[(⟨some "r1", none⟩ : AssessmentReportMetadata)]].flatten.map fun item =>
              [⟨"id", item.Id.getD ""⟩, ⟨"assessment_id", item.AssessmentId.getD ""⟩])
      ∧ (∃ batch, (sweepControls (worldOf [.ok [⟨none⟩]] deleteAll)
          "us-west-2").orchestrated = [batch]
        ∧ batch.length = [[(⟨none⟩ : ControlMetadata)]].flatten.length
        ∧ batch.map (fun d => d.attrs)
          = [[(⟨none⟩ : ControlMetadata)]].flatten.map fun item => [⟨"id", item.Id.getD ""⟩])
      ∧ (∃ batch, (sweepFrameworks (worldOf [.ok [⟨none⟩]] deleteAll)
          "us-west-2").orchestrated = [batch]
        ∧ batch.length = [[(⟨none⟩ : AssessmentFrameworkMetadata)]].flatten.length
        ∧ batch.map (fun d => d.attrs)
          = [[(⟨none⟩ : AssessmentFrameworkMetadata)]].flatten.map fun item =>
              [⟨"id", item.Id.getD ""⟩])
      ∧ (∃ batch, (sweepFrameworkShares (worldOf [.ok [⟨none⟩]] deleteAll)
          "us-west-2").orchestrated = [batch]
        ∧ batch.length = [[(⟨none⟩ : AssessmentFrameworkShareRequest)]].flatten.length
        ∧ batch.map (fun d => d.attrs)
          = [[(⟨none⟩ : AssessmentFrameworkShareRequest)]].flatten.map fun item =>
              [⟨"id", item.Id.getD ""⟩]) :=
  nil_ids_become_empty_strings "us-west-2"
    (worldOf [.ok [⟨none⟩, ⟨some "a2"⟩]] deleteAll) [[⟨none⟩, ⟨some "a2"⟩]]
    (worldOf [.ok [⟨none, none⟩]] deleteAll) [[⟨none, none⟩]]
    (worldOf [.ok [⟨some "r1", none⟩]] deleteAll) [[⟨some "r1", none⟩]]
    (worldOf [.ok [⟨none⟩]] deleteAll) [[⟨none⟩]]
    (worldOf [.ok [⟨none⟩]] deleteAll) [[⟨none⟩]]
    (worldOf [.ok [⟨none⟩]] deleteAll) [[⟨none⟩]]
    rfl rfl rfl rfl rfl rfl

/-! ## Formatting the configurations -/

/-- A format that scans is printed item by item. -/
theorem fmt.Sprintf_of_scan (format : String) (args : List Arg) (ts : List Token)
    (h : scanFormat format.toList .plain [] = some ts) :
    fmt.Sprintf format args = some (renderTokens args ts 0 false) := by
  unfold fmt.Sprintf
  rw [h]
  rfl

theorem fmt.Sprintf_isSome (format : String) (args : List Arg)
    (h : (scanFormat format.toList .plain []).isSome = true) :
    ∃ out, fmt.Sprintf format args = some out := by
  obtain ⟨ts, hts⟩ := Option.isSome_iff_exists.mp h
  exact ⟨_, fmt.Sprintf_of_scan format args ts hts⟩

/-- The format of `testAccChannelConfig_mediaPackageOutputSetting` is plain text: it has
no verb. -/
theorem mediaPackageOutputSetting_scan :
    scanFormat testAccChannelConfig_mediaPackageOutputSetting.format.toList .plain []
      = some [.text testAccChannelConfig_mediaPackageOutputSetting.format] := by
  decide!

/-- The format of `testAccChannelConfig_update` is four runs of text around the verbs
`%[2]q`, `%[3]q` and `%[4]q`. -/
theorem update_scan :
    scanFormat testAccChannelConfig_update.format.toList .plain []
      = some [.text (testAccChannelConfig_update.part 0), .verb (some 2) 'q',
          .text (testAccChannelConfig_update.part 2), .verb (some 3) 'q',
          .text (testAccChannelConfig_update.part 4), .verb (some 4) 'q',
          .text (testAccChannelConfig_update.part 6)] := by
  decide!

theorem base_formats_scan :
    (scanFormat testAccChannelConfig_base.format.toList .plain []).isSome = true
      ∧ (scanFormat testAccChannelConfig_baseS3.format.toList .plain []).isSome = true
      ∧ (scanFormat testAccChannelConfig_baseMultiplex.format.toList .plain []).isSome = true := by
  decide!

/-! ## Where the tests depart from their own configurations -/

/-- C26: for the name `tf-acc-test-123`, the configuration of the h264 test sets
`scene_change_detect` and `spatial_aq` in `h264_settings` to "ENABLED" while the test's
check map expects "DISABLED" and "0"; the other 29 attributes that both the configuration
and the check map give agree, and so do all 28 of the h265 test. -/
theorem h264_checks_contradict_config :
    ((testAccChannelConfig_videoDescriptionCodecSettingsH264Settings "tf-acc-test-123").map
        fun config => mismatches config
          TestAccMediaLiveChannel_VideoDescriptions_CodecSettings_h264Settings.codecChecks)
        = some [⟨"h264_settings", "scene_change_detect", "ENABLED", "DISABLED"⟩,
            ⟨"h264_settings", "spatial_aq", "ENABLED", "0"⟩]
      ∧ ((testAccChannelConfig_videoDescriptionCodecSettingsH264Settings "tf-acc-test-123").map
        fun config => (compared config
          TestAccMediaLiveChannel_VideoDescriptions_CodecSettings_h264Settings.codecChecks).length)
        = some 31
      ∧ ((testAccChannelConfig_videoDescriptionCodecSettingsH265Settings "tf-acc-test-123").map
        fun config => mismatches config
          TestAccMediaLiveChannel_VideoDescriptions_CodecSettings_h265Settings.codecChecks)
        = some []
      ∧ ((testAccChannelConfig_videoDescriptionCodecSettingsH265Settings "tf-acc-test-123").map
        fun config => (compared config
          TestAccMediaLiveChannel_VideoDescriptions_CodecSettings_h265Settings.codecChecks).length)
        = some 28 := by
  decide!

/-- C27: for the name `tf-acc-test-123`, the configuration of the first step of
`TestAccMediaLiveChannel_noDriftOnUnchangedMediaPackageOutputSettings` does not contain
the block header `resource "aws_medialive_channel" "test"` of the resource its check
looks for; the configuration of the second step, `testAccChannelConfig_basic`, does. -/
theorem noDrift_first_step_lacks_resource :
    blockHeader "aws_medialive_channel.test" = "resource \"aws_medialive_channel\" \"test\""
      ∧ (TestAccMediaLiveChannel_noDriftOnUnchangedMediaPackageOutputSettings
          "tf-acc-test-123").map
          (fun step => step.Config.map fun config => step.Check.map (declares config))
        = [some [false], some [true]]
      ∧ (testAccChannelConfig_mediaPackageOutputSetting "tf-acc-test-123").map
          (fun config => declares config "aws_medialive_channel.example")
        = some true := by
  decide!

/-- C28: for every name, `testAccChannelConfig_mediaPackageOutputSetting(rName)` is its
format followed by the report `%!(EXTRA string=<rName>)` that `fmt.Sprintf` appends for
the argument no verb uses; so it is never the format itself, and two names give two
configurations. -/
theorem mediaPackageOutputSetting_appends_extra (rName : String) :
    testAccChannelConfig_mediaPackageOutputSetting rName
        = some (testAccChannelConfig_mediaPackageOutputSetting.format
            ++ "%!(EXTRA string=" ++ rName ++ ")")
      ∧ testAccChannelConfig_mediaPackageOutputSetting rName
        ≠ some testAccChannelConfig_mediaPackageOutputSetting.format
      ∧ testAccChannelConfig_mediaPackageOutputSetting "tf-acc-test-1"
        ≠ testAccChannelConfig_mediaPackageOutputSetting "tf-acc-test-2" := by
  have h : testAccChannelConfig_mediaPackageOutputSetting rName
      = some (testAccChannelConfig_mediaPackageOutputSetting.format
          ++ "%!(EXTRA string=" ++ rName ++ ")") := by
    rw [testAccChannelConfig_mediaPackageOutputSetting,
      fmt.Sprintf_of_scan _ _ _ mediaPackageOutputSetting_scan]
    have hlit : "%!(EXTRA " ++ "string" ++ "=" = "%!(EXTRA string=" := by decide
    have hx : ∀ x : String,
        "%!(EXTRA " ++ ("string" ++ ("=" ++ x)) = "%!(EXTRA string=" ++ x := by
      intro x
      rw [← String.append_assoc, ← String.append_assoc, hlit]
    simp [renderTokens, extraArgs, Arg.typeName, Arg.value, String.intercalate,
      String.intercalate.go, hx, String.append_assoc]
  refine ⟨h, ?_, by decide!⟩
  rw [h]
  intro heq
  have hlen := congrArg String.length (Option.some.inj heq)
  simp only [String.length_append] at hlen
  have h1 : ")".length = 1 := by decide
  omega

/-! ## The two steps of the update test -/

/-- C29: for all `rName`, `codec` and `inputResolution` there are a text `pre`, which ends
in the header of the channel block and `name          = `, and a text `suf`, such that for
every second argument `n` the configuration
`testAccChannelConfig_update(rName, n, codec, inputResolution)` is `pre`, then `n` as
`%q` quotes it, then `suf`: two configurations that differ in the second argument only
differ in that quoted name. -/
theorem update_differs_only_in_name (rName codec inputResolution : String) :
    ∃ pre suf, (∃ head, pre = head
          ++ "\nresource \"aws_medialive_channel\" \"test\" \x7b\n  name          = ")
      ∧ ∀ n, testAccChannelConfig_update rName n codec inputResolution
          = some (pre ++ strconv.Quote n ++ suf) := by
  obtain ⟨hb, hs, hm⟩ := base_formats_scan
  obtain ⟨b, hb⟩ := fmt.Sprintf_isSome _ [.string rName] hb
  obtain ⟨s3, hs⟩ := fmt.Sprintf_isSome _ [.string rName] hs
  obtain ⟨m, hm⟩ := fmt.Sprintf_isSome _ [.string rName] hm
  have h0 : testAccChannelConfig_update.part 0
      = "\nresource \"aws_medialive_channel\" \"test\" \x7b\n  name          = " := by decide!
  refine ⟨b ++ s3 ++ m ++ testAccChannelConfig_update.part 0,
    testAccChannelConfig_update.part 2 ++ strconv.Quote codec
      ++ testAccChannelConfig_update.part 4 ++ strconv.Quote inputResolution
      ++ testAccChannelConfig_update.part 6, ⟨b ++ s3 ++ m, by rw [h0]⟩, ?_⟩
  intro n
  simp only [testAccChannelConfig_update, testAccChannelConfig_base,
    testAccChannelConfig_baseS3, testAccChannelConfig_baseMultiplex, hb, hs, hm,
    fmt.Sprintf_of_scan _ _ _ update_scan]
  simp [renderTokens, printArg, acctest.ConfigCompose, String.append_assoc]

end TfAws
